import Mathlib

/-!
# Verification of the flowers-forever subscription backend

Shallow embedding of the Python sources of the `flowers-forever`
repository (a Flask backend plus a Vercel serverless function), together
with theorems settling the frozen claims about the natural-language
specification.

Embedding conventions:
* JSON-decodable Python values are modelled by the inductive `Value`.
* Python exceptions are modelled by `Except PyErr`; a function that can
  raise returns `Except PyErr α`.
* `re.match` against the two concrete patterns used by the code is
  modelled by dedicated decidable matchers (`emailMatch`, `zipMatch`)
  whose semantics, including the `$`-before-trailing-newline rule, is
  derived in the comments.
* Whitespace, lowercasing and digits are modelled on ASCII; no claim in
  this development depends on non-ASCII behaviour.
-/

/-- A JSON-decodable Python value: the payloads reaching the validators
and endpoints after `json.loads` / `request.get_json`. Dicts are
modelled as association lists with distinct keys, in insertion order. -/
inductive Value where
  | str (s : String)
  | num (n : Int)
  | bool (b : Bool)
  | null
  | arr (xs : List Value)
  | obj (fields : List (String × Value))

/-- Python exception kinds raised by the embedded code. -/
inductive PyErr where
  | typeError
  | attributeError
  | valueError
  | keyError
  | exc (msg : String)
deriving DecidableEq

/-- First binding of `key` in an association list (Python `dict` lookup:
keys are unique, so first match is the match). -/
def dictGet : List (String × Value) → String → Option Value
  | [], _ => none
  | (k, v) :: rest, key => if k = key then some v else dictGet rest key

/-- Python `d.get(key, dflt)`. -/
def dictGetD (fields : List (String × Value)) (key : String) (dflt : Value) : Value :=
  (dictGet fields key).getD dflt

/-- Python truthiness of a JSON value (`bool(v)`). -/
def truthy : Value → Bool
  | .str s => !s.isEmpty
  | .num n => n != 0
  | .bool b => b
  | .null => false
  | .arr xs => !xs.isEmpty
  | .obj fs => !fs.isEmpty

/-- ASCII whitespace, as recognised by Python `str.strip()` and by the
regex class `\s`.  (Python also treats some non-ASCII code points as
whitespace; those are not modelled and no claim depends on them.) -/
def pyIsSpace (c : Char) : Bool :=
  c = ' ' || c = '\t' || c = '\n' || c = '\r' || c = '\x0b' || c = '\x0c'

/-- `not s.strip()`: every character of `s` is whitespace. -/
def isBlank (s : String) : Bool := s.data.all pyIsSpace

/-- Python `s.strip()`. -/
def pyStrip (s : String) : String :=
  ⟨((s.data.dropWhile pyIsSpace).reverse.dropWhile pyIsSpace).reverse⟩

/-- Python `s.upper()` / `s.lower()`, modelled per character on ASCII
(matching `str.upper`/`str.lower` on the ASCII inputs the claims use). -/
def pyUpper (s : String) : String := ⟨s.data.map Char.toUpper⟩

/-- See `pyUpper`. -/
def pyLower (s : String) : String := ⟨s.data.map Char.toLower⟩

mutual
/-- Python `str(v)` of a JSON value (containers render their elements
with `repr`; string escaping inside `repr` is not modelled, which only
affects rendered container contents and no claim depends on it). -/
def pyStr : Value → String
  | .str s => s
  | .num n => toString n
  | .bool true => "True"
  | .bool false => "False"
  | .null => "None"
  | .arr xs => "[" ++ String.intercalate ", " (pyReprList xs) ++ "]"
  | .obj fs => "\x7b" ++ String.intercalate ", " (pyReprFields fs) ++ "\x7d"

/-- Python `repr(v)` of a JSON value (strings quoted). -/
def pyRepr : Value → String
  | .str s => "\x27" ++ s ++ "\x27"
  | .num n => toString n
  | .bool true => "True"
  | .bool false => "False"
  | .null => "None"
  | .arr xs => "[" ++ String.intercalate ", " (pyReprList xs) ++ "]"
  | .obj fs => "\x7b" ++ String.intercalate ", " (pyReprFields fs) ++ "\x7d"

/-- `repr` of each element of a list. -/
def pyReprList : List Value → List String
  | [] => []
  | v :: vs => pyRepr v :: pyReprList vs

/-- `repr` of each `key: value` entry of a dict. -/
def pyReprFields : List (String × Value) → List String
  | [] => []
  | (k, v) :: fs => ("\x27" ++ k ++ "\x27: " ++ pyRepr v) :: pyReprFields fs
end

/-- A `$` anchor in a Python regex matches at the end of the string or
just before a single trailing newline; since both patterns used by the
code end in a character class excluding `\n`, a match against `s` is a
full match against `s` with one trailing newline removed. -/
def stripTrailingNL (l : List Char) : List Char :=
  if l.getLast? = some '\n' then l.dropLast else l

/-- Full-match semantics of `[^\s@]+@[^\s@]+\.[^\s@]+` on a character
list: the matched text contains no whitespace, exactly one `@` (no
group may contain one), a non-empty local part before the `@`, and the
part after the `@` splits as `B ++ "." ++ C` with `B`, `C` non-empty —
i.e. it contains a `.` that is neither its first nor its last
character. -/
def emailCore (l : List Char) : Bool :=
  let lcl := l.takeWhile (· ≠ '@')
  l.all (fun c => !pyIsSpace c) && l.count '@' == 1 &&
  match l.dropWhile (· ≠ '@') with
  | _ :: domain => !lcl.isEmpty && ((domain.drop 1).dropLast.contains '.')
  | [] => false

/-- `re.match(r"^[^\s@]+@[^\s@]+\.[^\s@]+$", s) is not None`. -/
def emailMatch (s : String) : Bool := emailCore (stripTrailingNL s.data)

/-- `re.match(r"^\d{5}$", s) is not None` (ASCII digits; Python `\d`
also accepts non-ASCII decimal digits, which are not modelled). -/
def zipMatch (s : String) : Bool :=
  let l := stripTrailingNL s.data
  l.length == 5 && l.all Char.isDigit

/-!
## Validators

`src/backend/utils/validators.py` (Flask backend) and the inline
validator `_validate` of `src/api/subscribe.py` (serverless function).
The email, plan-code and zip blocks are textually identical in the two
sources and are embedded once; the nested-address blocks differ in
their message texts and are embedded separately.
-/

/-- `VALID_PLAN_CODES` (identical in validators.py and api/subscribe.py). -/
def VALID_PLAN_CODES : List String :=
  ["1399", "classic-monthly", "premium-monthly", "deluxe-monthly",
   "biweekly-delivery", "weekly-delivery", "roses-monthly",
   "tropical-monthly", "petsafe-monthly", "plants-monthly"]

/-- `US_STATES` (identical in validators.py and api/subscribe.py). -/
def US_STATES : List String :=
  ["AL", "AK", "AZ", "AR", "CA", "CO", "CT", "DE", "FL", "GA",
   "HI", "ID", "IL", "IN", "IA", "KS", "KY", "LA", "ME", "MD",
   "MA", "MI", "MN", "MS", "MO", "MT", "NE", "NV", "NH", "NJ",
   "NM", "NY", "NC", "ND", "OH", "OK", "OR", "PA", "RI", "SC",
   "SD", "TN", "TX", "UT", "VT", "VA", "WA", "WV", "WI", "WY"]

/-- `f"'{key}' is required."` -/
def requiredMsg (key : String) : String := "\x27" ++ key ++ "\x27 is required."

/-- `_required(data, *keys)` from validators.py lines 31-38: one message
per key whose value is missing, not a string, or blank after stripping.
The serverless top-level required loop (api/subscribe.py lines 56-58)
computes exactly this expression. -/
def _required (data : List (String × Value)) (keys : List String) : List String :=
  (keys.map (fun key =>
    match dictGetD data key (.str "") with
    | .str s => if isBlank s then [requiredMsg key] else []
    | _ => [requiredMsg key])).flatten

/-- The five required top-level fields. -/
def REQUIRED_KEYS : List String :=
  ["recurly_token", "plan_code", "first_name", "last_name", "email"]

def emailErrMsg : String := "\x27email\x27 is not a valid email address."

/-- Email-format block (validators.py lines 54-57 = api/subscribe.py
lines 59-61).  `re.match` applied to a truthy non-string raises
`TypeError`. -/
def emailStep (fields : List (String × Value)) (errors : List String) :
    Except PyErr (List String) :=
  let email := dictGetD fields "email" (.str "")
  if truthy email then
    match email with
    | .str s => .ok (if !emailMatch s then errors ++ [emailErrMsg] else errors)
    | _ => .error .typeError
  else .ok errors

/-- `f"'plan_code' '{plan_code}' is not a recognised plan."` -/
def planMsg (plan : Value) : String :=
  "\x27plan_code\x27 \x27" ++ pyStr plan ++ "\x27 is not a recognised plan."

/-- Plan-code block (validators.py lines 59-62 = api/subscribe.py lines
62-64).  Membership of an unhashable value (list or dict) in the
`VALID_PLAN_CODES` set raises `TypeError`; other non-string hashable
values are simply not members. -/
def planStep (fields : List (String × Value)) (errors : List String) :
    Except PyErr (List String) :=
  let plan := dictGetD fields "plan_code" (.str "")
  if truthy plan then
    match plan with
    | .str s =>
        .ok (if !VALID_PLAN_CODES.contains s then errors ++ [planMsg plan] else errors)
    | .arr _ => .error .typeError
    | .obj _ => .error .typeError
    | _ => .ok (errors ++ [planMsg plan])
  else .ok errors

def zipMsg : String := "\x27address.zip\x27 must be a 5-digit US ZIP code."

/-- Zip block (validators.py lines 75-77 = api/subscribe.py lines
75-77): `str()` is applied first, so this step never raises. -/
def zipStep (afields : List (String × Value)) (errors : List String) : List String :=
  let zip := dictGetD afields "zip" (.str "")
  if truthy zip && !zipMatch (pyStr zip) then errors ++ [zipMsg] else errors

def addrObjMsg : String := "\x27address\x27 must be an object."

def nonDictMsg : String := "Request body must be a JSON object."

/-- `f"'address.state' '{state}' is not a valid US state abbreviation."`
(backend wording). -/
def stateMsgBackend (s : String) : String :=
  "\x27address.state\x27 \x27" ++ s ++ "\x27 is not a valid US state abbreviation."

/-- State block of the backend validator (validators.py lines 71-73):
`.upper()` on a truthy non-string raises `AttributeError`. -/
def stateStepBackend (afields : List (String × Value)) (errors : List String) :
    Except PyErr (List String) :=
  let state := dictGetD afields "state" (.str "")
  if truthy state then
    match state with
    | .str s =>
        .ok (if !US_STATES.contains (pyUpper s) then errors ++ [stateMsgBackend s] else errors)
    | _ => .error .attributeError
  else .ok errors

/-- Address block of the backend validator (validators.py lines 64-77). -/
def addressStepBackend (fields : List (String × Value)) (errors : List String) :
    Except PyErr (List String) :=
  match dictGetD fields "address" .null with
  | .obj afields =>
      let errs1 := errors ++ _required afields ["address1", "city", "state", "zip"]
      match stateStepBackend afields errs1 with
      | .ok errs2 => .ok (zipStep afields errs2)
      | .error e => .error e
  | _ => .ok (errors ++ [addrObjMsg])

/-- `validate_subscription_payload` from
src/backend/utils/validators.py lines 41-79. -/
def validate_subscription_payload (data : Value) : Except PyErr (List String) :=
  match data with
  | .obj fields =>
      let errs0 := _required fields REQUIRED_KEYS
      match emailStep fields errs0 with
      | .error e => .error e
      | .ok errs1 =>
        match planStep fields errs1 with
        | .error e => .error e
        | .ok errs2 => addressStepBackend fields errs2
  | _ => .ok [nonDictMsg]

/-- `f"'address.{key}' is required."` (serverless wording for nested
address fields). -/
def addrRequiredMsgSv (key : String) : String :=
  "\x27address." ++ key ++ "\x27 is required."

/-- Nested required loop of the serverless validator (api/subscribe.py
lines 69-71). -/
def _required_addr_sv (afields : List (String × Value)) : List String :=
  ((["address1", "city", "state", "zip"]).map (fun key =>
    match dictGetD afields key (.str "") with
    | .str s => if isBlank s then [addrRequiredMsgSv key] else []
    | _ => [addrRequiredMsgSv key])).flatten

/-- `f"'address.state' '{state}' is not a valid US state."` (serverless
wording). -/
def stateMsgSv (s : String) : String :=
  "\x27address.state\x27 \x27" ++ s ++ "\x27 is not a valid US state."

/-- State block of the serverless validator (api/subscribe.py lines
72-74). -/
def stateStepSv (afields : List (String × Value)) (errors : List String) :
    Except PyErr (List String) :=
  let state := dictGetD afields "state" (.str "")
  if truthy state then
    match state with
    | .str s =>
        .ok (if !US_STATES.contains (pyUpper s) then errors ++ [stateMsgSv s] else errors)
    | _ => .error .attributeError
  else .ok errors

/-- Address block of the serverless validator (api/subscribe.py lines
65-77). -/
def addressStepSv (fields : List (String × Value)) (errors : List String) :
    Except PyErr (List String) :=
  match dictGetD fields "address" .null with
  | .obj afields =>
      let errs1 := errors ++ _required_addr_sv afields
      match stateStepSv afields errs1 with
      | .ok errs2 => .ok (zipStep afields errs2)
      | .error e => .error e
  | _ => .ok (errors ++ [addrObjMsg])

/-- `_validate` from src/api/subscribe.py lines 54-78.  Unlike the
backend validator it has no dict guard: on a non-dict input the first
`data.get` raises `AttributeError`. -/
def _validate (data : Value) : Except PyErr (List String) :=
  match data with
  | .obj fields =>
      let errs0 := _required fields REQUIRED_KEYS
      match emailStep fields errs0 with
      | .error e => .error e
      | .ok errs1 =>
        match planStep fields errs1 with
        | .error e => .error e
        | .ok errs2 => addressStepSv fields errs2
  | _ => .error .attributeError

/-!
## Webhook receiver

`src/backend/api/webhooks.py`: Basic-Auth gate, XML dispatch by root
tag, always-200 acknowledgment.
-/

/-- An XML element tree (`xml.etree.ElementTree.Element`): dispatch only
inspects the root tag; handlers receive the whole element. -/
inductive Xml where
  | elem (tag : String) (children : List Xml) (text : Option String)

/-- `root.tag`. -/
def Xml.tag : Xml → String
  | .elem t _ _ => t

/-- The ten event handlers of webhooks.py, identified by name.  Their
bodies are logging stubs; the dispatcher treats them as opaque actions
whose runtime outcome is an oracle parameter (see `recurly_webhook`). -/
inductive Handler where
  | newSubscription
  | updatedSubscription
  | canceledSubscription
  | expiredSubscription
  | renewedSubscription
  | reactivatedSubscription
  | billingInfoUpdated
  | failedPayment
  | successfulPayment
  | newInvoice
deriving DecidableEq

/-- `_HANDLERS` (webhooks.py lines 221-232), in source order. -/
def _HANDLERS : List (String × Handler) :=
  [("new_subscription_notification", .newSubscription),
   ("updated_subscription_notification", .updatedSubscription),
   ("canceled_subscription_notification", .canceledSubscription),
   ("expired_subscription_notification", .expiredSubscription),
   ("renewed_subscription_notification", .renewedSubscription),
   ("reactivated_subscription_notification", .reactivatedSubscription),
   ("billing_info_updated_notification", .billingInfoUpdated),
   ("failed_payment_notification", .failedPayment),
   ("successful_payment_notification", .successfulPayment),
   ("new_invoice_notification", .newInvoice)]

/-- The inbound request body as the endpoint observes it:
`request.get_data()` empty, or non-empty and failing `ET.fromstring`,
or non-empty and parsing to a root element. -/
inductive WebhookBody where
  | empty
  | malformed
  | parsed (root : Xml)

/-- The request `Authorization` header as Flask exposes it
(`request.authorization`); username/password may each be absent. -/
structure BasicAuth where
  username : Option String
  password : Option String

/-- The three environment variables read by `_check_basic_auth`
(`none` = unset). -/
structure WebhookEnv where
  recurly_webhook_user : Option String
  recurly_webhook_secret : Option String
  flask_env : Option String

/-- Observable outcome of a webhook request: HTTP status plus the list
of event handlers that were invoked. -/
structure WebhookResult where
  status : Nat
  invoked : List Handler
deriving DecidableEq

/-- Body of `recurly_webhook` (webhooks.py lines 241-264), after the
auth decorator has admitted the request.  `hres` is the runtime outcome
of each handler (the source handlers are logging stubs, but the
dispatcher guards the call with a blanket `except Exception`, so the
outcome is universally quantified in the theorems). -/
def recurly_webhook (hres : Handler → Xml → Except PyErr Unit)
    (body : WebhookBody) : WebhookResult :=
  match body with
  | .empty => ⟨400, []⟩
  | .malformed => ⟨400, []⟩
  | .parsed root =>
    match List.lookup root.tag _HANDLERS with
    | some h =>
      match hres h root with
      | .ok _ => ⟨200, [h]⟩
      | .error _ => ⟨200, [h]⟩
    | none => ⟨200, []⟩

/-- Whether every character of a string is ASCII (`str.isascii`). -/
def isAsciiStr (s : String) : Bool := s.data.all (fun c => c.toNat ≤ 127)

/-- `hmac.compare_digest` on `str` arguments: equality of the two
strings when both are ASCII-only, and `TypeError` when either contains
a non-ASCII character (the constant-time property itself is a timing
concern outside the embedding). -/
def compare_digest (a b : String) : Except PyErr Bool :=
  if isAsciiStr a && isAsciiStr b then .ok (a == b) else .error .typeError

/-- `_check_basic_auth` (webhooks.py lines 46-73) wrapping a view
`proceed`.  The two `compare_digest` calls (lines 65-66) run in order
before the credential test, so a non-ASCII submitted or configured
credential raises `TypeError` out of the decorator (Flask then answers
with the generic 500 handler). -/
def _check_basic_auth (env : WebhookEnv) (auth : Option BasicAuth)
    (proceed : Unit → WebhookResult) : Except PyErr WebhookResult :=
  let expected_user := env.recurly_webhook_user.getD "recurly"
  let expected_secret := env.recurly_webhook_secret.getD ""
  if expected_secret = "" then
    if env.flask_env = some "development" then .ok (proceed ())
    else .ok ⟨503, []⟩
  else
    match auth with
    | none => .ok ⟨401, []⟩
    | some a =>
      match compare_digest (a.username.getD "") expected_user with
      | .error e => .error e
      | .ok user_ok =>
        match compare_digest (a.password.getD "") expected_secret with
        | .error e => .error e
        | .ok secret_ok =>
          if user_ok && secret_ok then .ok (proceed ()) else .ok ⟨403, []⟩

/-- The composed endpoint `POST /api/webhooks/recurly`: the auth
decorator applied to `recurly_webhook`.  An `.error` outcome is an
exception escaping the view, which the app surfaces as HTTP 500. -/
def webhook_endpoint (env : WebhookEnv) (auth : Option BasicAuth)
    (hres : Handler → Xml → Except PyErr Unit) (body : WebhookBody) :
    Except PyErr WebhookResult :=
  _check_basic_auth env auth (fun _ => recurly_webhook hres body)

/-!
## Provider client model and endpoints

`src/backend/utils/recurly_client.py` yields a process-wide client that
is `None` when unconfigured; endpoints take it as `Option Unit`.  The
outcome of each SDK call is an oracle argument of type `RecurlyResult`,
whose constructors are the exception classes the endpoints catch
(`NotFoundError`, `ValidationError`, `TransactionError` and
`InvalidTokenError` all subclass `ApiError`, so a clause
`except RecurlyApiError` catches every constructor except `pyExc`,
which stands for a non-Recurly exception).  Each endpoint additionally
returns the list of SDK calls it performed.
-/

/-- `_account_code_from_email`: `[a-z0-9._-]`, the safe class of the
substitution regex (`97-122` = `a-z`, `48-57` = `0-9`). -/
def isSafeChar (c : Char) : Bool :=
  (97 ≤ c.toNat && c.toNat ≤ 122) || (48 ≤ c.toNat && c.toNat ≤ 57) ||
  c = '.' || c = '_' || c = '-'

/-- One character of `re.sub(r"[^a-z0-9._-]", "-", ·)`. -/
def sanitizeChar (c : Char) : Char :=
  if isSafeChar c then c else '-'

/-- `_account_code_from_email` from src/backend/api/subscribe.py lines
27-30 (and, textually identical, src/api/subscribe.py lines 49-51):
`re.sub(r"[^a-z0-9._-]", "-", email.lower())[:50]`.  Lowercasing is
modelled per character with `Char.toLower`; a character whose Python
lowercase form is non-ASCII stays outside the safe class and is
replaced by `-` either way. -/
def _account_code_from_email (email : String) : String :=
  ⟨((email.data.map Char.toLower).map sanitizeChar).take 50⟩

/-- An HTTP response: status code plus JSON body (an object rendered as
its field list). -/
structure Resp where
  status : Nat
  body : List (String × Value)

/-- `{"success": False, "message": msg}`. -/
def failBody (msg : String) : List (String × Value) :=
  [("success", .bool false), ("message", .str msg)]

/-- A provider-side subscription as the endpoints read it (timestamps
carried as their `isoformat` strings). -/
structure Subscription where
  id : String
  uuid : String
  state : String
  plan : Option (String × String)
  unit_amount : Value
  currency : String
  current_period_started_at : Option String
  current_period_ends_at : Option String
  activated_at : Option String
  expires_at : Option String
  paused_at : Option String
  account_code : String

/-- A provider-side invoice. -/
structure Invoice where
  id : String
  number : Value
  state : String
  total : Value
  currency : String
  due_on : Option String
  closed_at : Option String

/-- A provider-side account. -/
structure Account where
  code : String
  email : Value
  first_name : Value
  last_name : Value
  created_at : Option String

/-- `x.isoformat() if x else None`. -/
def optStr : Option String → Value
  | some s => .str s
  | none => .null

/-- `_serialize_subscription` (account.py lines 42-62). -/
def _serialize_subscription (sub : Subscription) : Value :=
  .obj [("id", .str sub.id),
        ("uuid", .str sub.uuid),
        ("state", .str sub.state),
        ("plan_code", match sub.plan with | some p => .str p.1 | none => .null),
        ("plan_name", match sub.plan with | some p => .str p.2 | none => .null),
        ("unit_amount", sub.unit_amount),
        ("currency", .str sub.currency),
        ("current_period_started_at", optStr sub.current_period_started_at),
        ("current_period_ends_at", optStr sub.current_period_ends_at),
        ("activated_at", optStr sub.activated_at),
        ("expires_at", optStr sub.expires_at),
        ("paused_at", optStr sub.paused_at)]

/-- `_serialize_invoice` (account.py lines 65-74). -/
def _serialize_invoice (inv : Invoice) : Value :=
  .obj [("id", .str inv.id),
        ("number", inv.number),
        ("state", .str inv.state),
        ("total", inv.total),
        ("currency", .str inv.currency),
        ("due_on", optStr inv.due_on),
        ("closed_at", optStr inv.closed_at)]

/-- An SDK call made by an endpoint, with its arguments. -/
inductive ProviderCall where
  | get_account_call (id : String)
  | list_account_subscriptions_call (id : String) (params : List (String × Value))
  | pause_subscription_call (subId : String) (remaining_pause_cycles : Int)
  | cancel_subscription_call (subId : String)
  | terminate_subscription_call (subId : String) (params : List (String × Value))
  | update_subscription_call (subId : String) (plan_code : String)
  | update_billing_info_call (id : String) (token_id : String)
  | list_account_invoices_call (id : String) (params : List (String × Value))
  | create_subscription_call (body : Value)

/-- The `e.error` body of a Recurly `TransactionError`: a list of
parameter dicts. -/
structure TransactionErrorBody where
  params : List (List (String × Value))

/-- A Recurly `TransactionError`: `message` is `str(e)`; `error` may be
absent/falsy. -/
structure TransactionErrorInfo where
  message : String
  error : Option TransactionErrorBody

/-- Outcome of one SDK call: a value, or one of the Recurly exception
classes (carrying `str(e)`), or a non-Recurly exception. -/
inductive RecurlyResult (α : Type) where
  | ok (a : α)
  | validationError (msg : String)
  | notFoundError (msg : String)
  | transactionError (e : TransactionErrorInfo)
  | invalidTokenError (msg : String)
  | apiError (msg : String)
  | pyExc (msg : String)

/-- Functorial map on the `ok` case. -/
def RecurlyResult.map (f : α → β) : RecurlyResult α → RecurlyResult β
  | .ok a => .ok (f a)
  | .validationError m => .validationError m
  | .notFoundError m => .notFoundError m
  | .transactionError e => .transactionError e
  | .invalidTokenError m => .invalidTokenError m
  | .apiError m => .apiError m
  | .pyExc m => .pyExc m

/-- `params={"state": "active", "limit": 1}` of the active-subscription
lookup. -/
def activeSubParams : List (String × Value) :=
  [("state", Value.str "active"), ("limit", Value.num 1)]

/-- `_get_active_subscription` (account.py lines 77-85): list the
account subscriptions filtered to `state=active, limit=1` and take the
first item (`for sub in subs.items(): return sub`) or `None`.  Returns
the mapped call outcome together with the call made. -/
def _get_active_subscription (listR : RecurlyResult (List Subscription))
    (account_code : String) : RecurlyResult (Option Subscription) × ProviderCall :=
  (listR.map List.head?,
   .list_account_subscriptions_call ("code-" ++ account_code) activeSubParams)

/-- `request.get_json(silent=True) or {}` (account.py): an absent or
unparsable body gives `None`, and `or {}` replaces any falsy result
with the empty dict. -/
def jsonOrEmpty : Option Value → Value
  | some v => if truthy v then v else .obj []
  | none => .obj []

/-- `v.get(key, dflt)`: `AttributeError` when `v` is not a dict. -/
def pyDictGet (v : Value) (key : String) (dflt : Value) : Except PyErr Value :=
  match v with
  | .obj fs => .ok (dictGetD fs key dflt)
  | _ => .error .attributeError

/-- Python `int(s)` on a string: strip, optional sign, decimal digits
(digit-group underscores are not modelled). -/
def pyIntOfStr (s : String) : Option Int :=
  let t := (pyStrip s).data
  let p : Int × List Char :=
    match t with
    | '-' :: rest => (-1, rest)
    | '+' :: rest => (1, rest)
    | l => (1, l)
  if !p.2.isEmpty && p.2.all Char.isDigit then
    some (p.1 * (Int.ofNat (p.2.foldl (fun acc c => acc * 10 + (c.toNat - 48)) 0)))
  else none

/-- Python `int(v)` on a JSON value: `ValueError` on a non-numeric
string, `TypeError` on other non-numeric values. -/
def pyInt : Value → Except PyErr Int
  | .num n => .ok n
  | .bool b => .ok (if b then 1 else 0)
  | .str s =>
      match pyIntOfStr s with
      | some n => .ok n
      | none => .error .valueError
  | _ => .error .typeError

/-- `data[key]`: `KeyError` when absent. -/
def pyIndex (fields : List (String × Value)) (key : String) : Except PyErr Value :=
  match dictGet fields key with
  | some v => .ok v
  | none => .error .keyError

/-- A string method call (`.strip()`, `.upper()`) on a value:
`AttributeError` unless it is a string. -/
def asStrA : Value → Except PyErr String
  | .str s => .ok s
  | _ => .error .attributeError

/-- `GET /api/account/<account_code>` (account.py lines 92-115).
Oracles: `accountR` for `client.get_account`, `listR` for the
subscription listing inside `_get_active_subscription`. -/
def get_account (client : Option Unit) (accountR : RecurlyResult Account)
    (listR : RecurlyResult (List Subscription)) (account_code : String) :
    Except PyErr (Resp × List ProviderCall) :=
  match client with
  | none => .ok (⟨503, failBody "Recurly not configured"⟩, [])
  | some _ =>
    let getCall := ProviderCall.get_account_call ("code-" ++ account_code)
    match accountR with
    | .ok account =>
      let lk := _get_active_subscription listR account_code
      match lk.1 with
      | .ok active_sub =>
        .ok (⟨200, [("success", .bool true),
                    ("account", .obj [("code", .str account.code),
                                      ("email", account.email),
                                      ("first_name", account.first_name),
                                      ("last_name", account.last_name),
                                      ("created_at", optStr account.created_at)]),
                    ("active_subscription",
                      match active_sub with
                      | some s => _serialize_subscription s
                      | none => .null)]⟩, [getCall, lk.2])
      | .notFoundError _ => .ok (⟨404, failBody "Account not found"⟩, [getCall, lk.2])
      | .validationError m => .ok (⟨502, failBody m⟩, [getCall, lk.2])
      | .transactionError e => .ok (⟨502, failBody e.message⟩, [getCall, lk.2])
      | .invalidTokenError m => .ok (⟨502, failBody m⟩, [getCall, lk.2])
      | .apiError m => .ok (⟨502, failBody m⟩, [getCall, lk.2])
      | .pyExc m => .error (.exc m)
    | .notFoundError _ => .ok (⟨404, failBody "Account not found"⟩, [getCall])
    | .validationError m => .ok (⟨502, failBody m⟩, [getCall])
    | .transactionError e => .ok (⟨502, failBody e.message⟩, [getCall])
    | .invalidTokenError m => .ok (⟨502, failBody m⟩, [getCall])
    | .apiError m => .ok (⟨502, failBody m⟩, [getCall])
    | .pyExc m => .error (.exc m)

/-- `GET /api/account/<account_code>/subscriptions` (account.py lines
122-139). -/
def list_subscriptions (client : Option Unit)
    (listR : RecurlyResult (List Subscription)) (account_code : String) :
    Except PyErr (Resp × List ProviderCall) :=
  match client with
  | none => .ok (⟨503, failBody "Recurly not configured"⟩, [])
  | some _ =>
    let call := ProviderCall.list_account_subscriptions_call
      ("code-" ++ account_code) [("limit", Value.num 20)]
    match listR with
    | .ok subs =>
      .ok (⟨200, [("success", .bool true),
                  ("subscriptions", .arr (subs.map _serialize_subscription))]⟩, [call])
    | .notFoundError _ => .ok (⟨404, failBody "Account not found"⟩, [call])
    | .validationError m => .ok (⟨502, failBody m⟩, [call])
    | .transactionError e => .ok (⟨502, failBody e.message⟩, [call])
    | .invalidTokenError m => .ok (⟨502, failBody m⟩, [call])
    | .apiError m => .ok (⟨502, failBody m⟩, [call])
    | .pyExc m => .error (.exc m)

/-- The `try:` block of `pause_subscription` (account.py lines 156-177),
after `cycles` has been computed. -/
def pause_dispatch (listR : RecurlyResult (List Subscription))
    (mutR : RecurlyResult Subscription) (account_code : String) (cycles : Int) :
    Except PyErr (Resp × List ProviderCall) :=
  let lk := _get_active_subscription listR account_code
  match lk.1 with
  | .ok none => .ok (⟨404, failBody "No active subscription found"⟩, [lk.2])
  | .ok (some active_sub) =>
    let mutCall := ProviderCall.pause_subscription_call active_sub.id cycles
    match mutR with
    | .ok updated =>
      .ok (⟨200, [("success", .bool true),
                  ("message", .str ("Subscription paused for " ++ toString cycles
                    ++ " billing cycle(s).")),
                  ("subscription", _serialize_subscription updated)]⟩, [lk.2, mutCall])
    | .notFoundError _ => .ok (⟨404, failBody "Subscription not found"⟩, [lk.2, mutCall])
    | .validationError m => .ok (⟨422, failBody m⟩, [lk.2, mutCall])
    | .transactionError e => .ok (⟨502, failBody e.message⟩, [lk.2, mutCall])
    | .invalidTokenError m => .ok (⟨502, failBody m⟩, [lk.2, mutCall])
    | .apiError m => .ok (⟨502, failBody m⟩, [lk.2, mutCall])
    | .pyExc m => .error (.exc m)
  | .notFoundError _ => .ok (⟨404, failBody "Subscription not found"⟩, [lk.2])
  | .validationError m => .ok (⟨422, failBody m⟩, [lk.2])
  | .transactionError e => .ok (⟨502, failBody e.message⟩, [lk.2])
  | .invalidTokenError m => .ok (⟨502, failBody m⟩, [lk.2])
  | .apiError m => .ok (⟨502, failBody m⟩, [lk.2])
  | .pyExc m => .error (.exc m)

/-- `POST /api/account/<account_code>/subscription/pause` (account.py
lines 147-177).  `int()` on the body value can raise before the `try:`
block. -/
def pause_subscription (client : Option Unit) (reqJson : Option Value)
    (listR : RecurlyResult (List Subscription)) (mutR : RecurlyResult Subscription)
    (account_code : String) : Except PyErr (Resp × List ProviderCall) :=
  match client with
  | none => .ok (⟨503, failBody "Recurly not configured"⟩, [])
  | some _ =>
    match pyDictGet (jsonOrEmpty reqJson) "remaining_pause_cycles" (.num 1) with
    | .error e => .error e
    | .ok cv =>
      match pyInt cv with
      | .error e => .error e
      | .ok cycles => pause_dispatch listR mutR account_code cycles

/-- The `try:` block of `cancel_subscription` (account.py lines
194-219). -/
def cancel_dispatch (listR : RecurlyResult (List Subscription))
    (mutR : RecurlyResult Subscription) (account_code : String)
    (at_period_end : Value) : Except PyErr (Resp × List ProviderCall) :=
  let lk := _get_active_subscription listR account_code
  match lk.1 with
  | .ok none => .ok (⟨404, failBody "No active subscription found"⟩, [lk.2])
  | .ok (some active_sub) =>
    let mutCall :=
      if truthy at_period_end then ProviderCall.cancel_subscription_call active_sub.id
      else ProviderCall.terminate_subscription_call active_sub.id
        [("refund", Value.str "none")]
    match mutR with
    | .ok updated =>
      .ok (⟨200, [("success", .bool true),
                  ("message", .str (if truthy at_period_end then
                    "Subscription canceled. You\x27ll continue to receive deliveries until the end of your billing period."
                    else "Subscription canceled.")),
                  ("subscription", _serialize_subscription updated)]⟩, [lk.2, mutCall])
    | .notFoundError _ => .ok (⟨404, failBody "Subscription not found"⟩, [lk.2, mutCall])
    | .validationError m => .ok (⟨502, failBody m⟩, [lk.2, mutCall])
    | .transactionError e => .ok (⟨502, failBody e.message⟩, [lk.2, mutCall])
    | .invalidTokenError m => .ok (⟨502, failBody m⟩, [lk.2, mutCall])
    | .apiError m => .ok (⟨502, failBody m⟩, [lk.2, mutCall])
    | .pyExc m => .error (.exc m)
  | .notFoundError _ => .ok (⟨404, failBody "Subscription not found"⟩, [lk.2])
  | .validationError m => .ok (⟨502, failBody m⟩, [lk.2])
  | .transactionError e => .ok (⟨502, failBody e.message⟩, [lk.2])
  | .invalidTokenError m => .ok (⟨502, failBody m⟩, [lk.2])
  | .apiError m => .ok (⟨502, failBody m⟩, [lk.2])
  | .pyExc m => .error (.exc m)

/-- `POST /api/account/<account_code>/subscription/cancel` (account.py
lines 185-219). -/
def cancel_subscription (client : Option Unit) (reqJson : Option Value)
    (listR : RecurlyResult (List Subscription)) (mutR : RecurlyResult Subscription)
    (account_code : String) : Except PyErr (Resp × List ProviderCall) :=
  match client with
  | none => .ok (⟨503, failBody "Recurly not configured"⟩, [])
  | some _ =>
    match pyDictGet (jsonOrEmpty reqJson) "at_end_of_billing_period" (.bool true) with
    | .error e => .error e
    | .ok at_period_end => cancel_dispatch listR mutR account_code at_period_end

/-- The `try:` block of `change_plan` (account.py lines 238-259). -/
def change_plan_dispatch (listR : RecurlyResult (List Subscription))
    (mutR : RecurlyResult Subscription) (account_code : String)
    (new_plan_code : String) : Except PyErr (Resp × List ProviderCall) :=
  let lk := _get_active_subscription listR account_code
  match lk.1 with
  | .ok none => .ok (⟨404, failBody "No active subscription found"⟩, [lk.2])
  | .ok (some active_sub) =>
    let mutCall := ProviderCall.update_subscription_call active_sub.id new_plan_code
    match mutR with
    | .ok updated =>
      .ok (⟨200, [("success", .bool true),
                  ("message", .str ("Plan updated to " ++ new_plan_code ++ ".")),
                  ("subscription", _serialize_subscription updated)]⟩, [lk.2, mutCall])
    | .notFoundError _ =>
      .ok (⟨404, failBody "Subscription or plan not found"⟩, [lk.2, mutCall])
    | .validationError m => .ok (⟨422, failBody m⟩, [lk.2, mutCall])
    | .transactionError e => .ok (⟨502, failBody e.message⟩, [lk.2, mutCall])
    | .invalidTokenError m => .ok (⟨502, failBody m⟩, [lk.2, mutCall])
    | .apiError m => .ok (⟨502, failBody m⟩, [lk.2, mutCall])
    | .pyExc m => .error (.exc m)
  | .notFoundError _ => .ok (⟨404, failBody "Subscription or plan not found"⟩, [lk.2])
  | .validationError m => .ok (⟨422, failBody m⟩, [lk.2])
  | .transactionError e => .ok (⟨502, failBody e.message⟩, [lk.2])
  | .invalidTokenError m => .ok (⟨502, failBody m⟩, [lk.2])
  | .apiError m => .ok (⟨502, failBody m⟩, [lk.2])
  | .pyExc m => .error (.exc m)

/-- `PUT /api/account/<account_code>/subscription/plan` (account.py
lines 227-259).  `(data.get("plan_code") or "").strip()` raises
`AttributeError` on a truthy non-string; an empty result returns 422
before any provider call. -/
def change_plan (client : Option Unit) (reqJson : Option Value)
    (listR : RecurlyResult (List Subscription)) (mutR : RecurlyResult Subscription)
    (account_code : String) : Except PyErr (Resp × List ProviderCall) :=
  match client with
  | none => .ok (⟨503, failBody "Recurly not configured"⟩, [])
  | some _ =>
    match pyDictGet (jsonOrEmpty reqJson) "plan_code" .null with
    | .error e => .error e
    | .ok pv =>
      match asStrA (if truthy pv then pv else .str "") with
      | .error e => .error e
      | .ok s =>
        let new_plan_code := pyStrip s
        if new_plan_code = "" then
          .ok (⟨422, failBody "\x27plan_code\x27 is required."⟩, [])
        else change_plan_dispatch listR mutR account_code new_plan_code

/-- `PUT /api/account/<account_code>/billing` (account.py lines
267-293). -/
def update_billing (client : Option Unit) (reqJson : Option Value)
    (billR : RecurlyResult Unit) (account_code : String) :
    Except PyErr (Resp × List ProviderCall) :=
  match client with
  | none => .ok (⟨503, failBody "Recurly not configured"⟩, [])
  | some _ =>
    match pyDictGet (jsonOrEmpty reqJson) "recurly_token" .null with
    | .error e => .error e
    | .ok tv =>
      match asStrA (if truthy tv then tv else .str "") with
      | .error e => .error e
      | .ok s =>
        let token := pyStrip s
        if token = "" then
          .ok (⟨422, failBody "\x27recurly_token\x27 is required."⟩, [])
        else
          let call := ProviderCall.update_billing_info_call
            ("code-" ++ account_code) token
          match billR with
          | .ok _ =>
            .ok (⟨200, [("success", .bool true),
                        ("message", .str "Payment method updated successfully.")]⟩, [call])
          | .notFoundError _ => .ok (⟨404, failBody "Account not found"⟩, [call])
          | .validationError m => .ok (⟨422, failBody m⟩, [call])
          | .transactionError e => .ok (⟨402, failBody e.message⟩, [call])
          | .invalidTokenError m => .ok (⟨502, failBody m⟩, [call])
          | .apiError m => .ok (⟨502, failBody m⟩, [call])
          | .pyExc m => .error (.exc m)

/-- `GET /api/account/<account_code>/invoices` (account.py lines
300-317). -/
def list_invoices (client : Option Unit) (invR : RecurlyResult (List Invoice))
    (account_code : String) : Except PyErr (Resp × List ProviderCall) :=
  match client with
  | none => .ok (⟨503, failBody "Recurly not configured"⟩, [])
  | some _ =>
    let call := ProviderCall.list_account_invoices_call
      ("code-" ++ account_code) [("limit", Value.num 20)]
    match invR with
    | .ok invoices =>
      .ok (⟨200, [("success", .bool true),
                  ("invoices", .arr (invoices.map _serialize_invoice))]⟩, [call])
    | .notFoundError _ => .ok (⟨404, failBody "Account not found"⟩, [call])
    | .validationError m => .ok (⟨502, failBody m⟩, [call])
    | .transactionError e => .ok (⟨502, failBody e.message⟩, [call])
    | .invalidTokenError m => .ok (⟨502, failBody m⟩, [call])
    | .apiError m => .ok (⟨502, failBody m⟩, [call])
    | .pyExc m => .error (.exc m)

/-- `v != "asap"` (comparison of a JSON value against a string
literal). -/
def valueEqStr (v : Value) (s : String) : Bool :=
  match v with
  | .str t => t == s
  | _ => false

/-- Days in a month of the proleptic Gregorian calendar. -/
def daysInMonth (y m : Nat) : Nat :=
  if m = 2 then
    if y % 4 = 0 && (y % 100 ≠ 0 || y % 400 = 0) then 29 else 28
  else if m = 4 || m = 6 || m = 9 || m = 11 then 30
  else 31

/-- `datetime.strptime(s, "%Y-%m-%d")` followed by
`.replace(tzinfo=timezone.utc).isoformat()`, returning `none` when
`strptime` raises `ValueError`.  Modelled for zero-padded `YYYY-MM-DD`
inputs; `strptime` also accepts unpadded fields, which are not modelled
(this only affects the `starts_at` entry of the traced provider request
body, which no claim inspects). -/
def parseYmd (s : String) : Option String :=
  match s.data with
  | [y1, y2, y3, y4, '-', m1, m2, '-', d1, d2] =>
    if [y1, y2, y3, y4, m1, m2, d1, d2].all Char.isDigit then
      let y := ((y1.toNat - 48) * 10 + (y2.toNat - 48)) * 100
               + (y3.toNat - 48) * 10 + (y4.toNat - 48)
      let m := (m1.toNat - 48) * 10 + m2.toNat - 48
      let d := (d1.toNat - 48) * 10 + d2.toNat - 48
      if 1 ≤ m && m ≤ 12 && 1 ≤ d && d ≤ daysInMonth y m then
        some (s ++ "T00:00:00+00:00")
      else none
    else none
  | _ => none

/-- The code before the `try:` block of `create_subscription`
(backend/api/subscribe.py lines 64-119): JSON guard, validation, and
construction of the provider request body.  Returns either an early
response or the `subscription_body` passed to the SDK. -/
def create_subscription_prepare (reqJson : Option Value) :
    Except PyErr (Sum Resp Value) :=
  match reqJson with
  | none => .ok (.inl ⟨400, failBody "Request body must be JSON."⟩)
  | some data =>
    match validate_subscription_payload data with
    | .error e => .error e
    | .ok (e0 :: rest) =>
      .ok (.inl ⟨422, [("success", .bool false),
                       ("message", .str e0),
                       ("errors", .arr ((e0 :: rest).map Value.str))]⟩)
    | .ok [] =>
      match data with
      | .obj fields =>
        (match dictGet fields "address" with
         | some (.obj afields) => do
           let plan ← pyIndex fields "plan_code"
           let emailV ← pyIndex fields "email"
           let emailS ← match emailV with
             | .str s => Except.ok s
             | _ => Except.error PyErr.typeError
           let fn ← asStrA (← pyIndex fields "first_name")
           let ln ← asStrA (← pyIndex fields "last_name")
           let street1 ← pyIndex afields "address1"
           let city ← pyIndex afields "city"
           let regionS ← asStrA (← pyIndex afields "state")
           let postal ← pyIndex afields "zip"
           let tok ← pyIndex fields "recurly_token"
           let street2 := if truthy (dictGetD afields "address2" .null)
             then dictGetD afields "address2" .null else .null
           let phone := if truthy (dictGetD fields "phone" .null)
             then dictGetD fields "phone" .null else .null
           let tds := dictGetD fields "three_d_secure_action_result_token_id" .null
           let billing := [("token_id", tok)]
             ++ (if truthy tds
                 then [("three_d_secure_action_result_token_id", tds)] else [])
           let accountObj : Value := .obj
             [("code", .str (_account_code_from_email emailS)),
              ("first_name", .str (pyStrip fn)),
              ("last_name", .str (pyStrip ln)),
              ("email", .str (pyLower (pyStrip emailS))),
              ("address", .obj
                [("street1", street1),
                 ("street2", street2),
                 ("city", city),
                 ("region", .str (pyUpper regionS)),
                 ("postal_code", postal),
                 ("country", dictGetD afields "country" (.str "US")),
                 ("phone", phone)]),
              ("billing_info", .obj billing)]
           let sd := dictGetD fields "start_date" (.str "asap")
           let startsPart ← if truthy sd && !valueEqStr sd "asap" then
               (match sd with
                | .str s => Except.ok (match parseYmd s with
                    | some iso => [("starts_at", Value.str iso)]
                    | none => [])
                | _ => Except.error PyErr.typeError)
             else Except.ok []
           let cc := dictGetD fields "coupon_code" .null
           let couponPart ← if truthy cc then
               (match cc with
                | .str s => Except.ok
                    [("coupon_codes", Value.arr [.str (pyUpper (pyStrip s))])]
                | _ => Except.error PyErr.attributeError)
             else Except.ok []
           Except.ok (.inr (.obj
             ([("plan_code", plan), ("currency", Value.str "USD"),
               ("account", accountObj)] ++ startsPart ++ couponPart)))
         | some _ => .error .typeError
         | none => .error .keyError)
      | _ => .error .typeError

/-- `e.error.params[0].get("three_d_secure_action_token_id") if e.error
and e.error.params else None` (backend/api/subscribe.py line 158). -/
def tds_token_of (e : TransactionErrorInfo) : Option Value :=
  match e.error with
  | some b =>
    match b.params with
    | p :: _ => dictGet p "three_d_secure_action_token_id"
    | [] => none
  | none => none

/-- The `try/except` chain around the SDK call
(backend/api/subscribe.py lines 122-183). -/
def create_subscription_dispatch (callR : RecurlyResult Subscription) : Resp :=
  match callR with
  | .ok sub =>
    ⟨201, [("success", .bool true),
           ("subscription_id", .str sub.id),
           ("account_code", .str sub.account_code),
           ("state", .str sub.state),
           ("current_period_ends_at", optStr sub.current_period_ends_at)]⟩
  | .validationError m => ⟨422, failBody m⟩
  | .notFoundError m => ⟨404, failBody m⟩
  | .transactionError e =>
    (match tds_token_of e with
     | some v =>
       if truthy v then
         ⟨402, [("success", .bool false),
                ("three_d_secure_action_token_id", v),
                ("message", .str "Card authentication required.")]⟩
       else ⟨402, failBody e.message⟩
     | none => ⟨402, failBody e.message⟩)
  | .invalidTokenError _ =>
    ⟨422, failBody "Payment token is invalid or expired. Please re-enter your card details."⟩
  | .apiError _ => ⟨502, failBody "A payment error occurred. Please try again."⟩
  | .pyExc _ => ⟨500, failBody "Internal server error."⟩

/-- `POST /api/subscribe` (backend/api/subscribe.py lines 33-183):
client guard, then `create_subscription_prepare`, then the SDK call
(whose outcome is the oracle `callR`) and its `except` chain. -/
def create_subscription (client : Option Unit) (reqJson : Option Value)
    (callR : RecurlyResult Subscription) : Except PyErr (Resp × List ProviderCall) :=
  match client with
  | none =>
    .ok (⟨503, failBody "Recurly API key not configured. See .env.example."⟩, [])
  | some _ =>
    match create_subscription_prepare reqJson with
    | .error e => .error e
    | .ok (.inl resp) => .ok (resp, [])
    | .ok (.inr body) =>
      .ok (create_subscription_dispatch callR, [.create_subscription_call body])

/-!
## Auxiliary definitions for the theorems
-/

/-- Whether an `Except` computation returned normally. -/
def exceptIsOk : Except PyErr (List String) → Bool
  | .ok _ => true
  | .error _ => false

/-- A value that the validators can pass to `re.match` / `.upper()`
without a type error: a string, or falsy (so the guarded block is
skipped). -/
def isStrOrFalsy : Value → Bool
  | .str _ => true
  | v => !truthy v

/-- A value whose set-membership test cannot raise: not a truthy list
or dict (the unhashable cases). -/
def notUnhashableTruthy : Value → Bool
  | .arr xs => xs.isEmpty
  | .obj fs => fs.isEmpty
  | _ => true

/-- Field values on which `validate_subscription_payload` performs no
raising operation: the email and (inside a dict address) state values
are strings whenever truthy, and the plan code is not a truthy
list/dict. -/
def validatorSafe (fields : List (String × Value)) : Bool :=
  isStrOrFalsy (dictGetD fields "email" (.str "")) &&
  notUnhashableTruthy (dictGetD fields "plan_code" (.str "")) &&
  (match dictGetD fields "address" .null with
   | .obj afields => isStrOrFalsy (dictGetD afields "state" (.str ""))
   | _ => true)

/-- The condition under which `_required` emits a message for `key`:
the value is absent, not a string, or blank after stripping. -/
def missingKey (fields : List (String × Value)) (key : String) : Bool :=
  match dictGetD fields key (.str "") with
  | .str s => isBlank s
  | _ => true

/-- The possible messages appended by the address block of the backend
validator. -/
def isAddrMsgB (m : String) : Prop :=
  m = addrObjMsg ∨ m = requiredMsg "address1" ∨ m = requiredMsg "city" ∨
  m = requiredMsg "state" ∨ m = requiredMsg "zip" ∨
  (∃ x, m = stateMsgBackend x) ∨ m = zipMsg

/-- A syntactically valid subscription payload used to instantiate
hypotheses in witnesses. -/
def exGoodPayload : Value :=
  .obj [("recurly_token", .str "tok-1"),
        ("plan_code", .str "classic-monthly"),
        ("first_name", .str "Jane"),
        ("last_name", .str "Doe"),
        ("email", .str "jane@example.com"),
        ("address", .obj [("address1", .str "1 Main St"),
                          ("city", .str "New York"),
                          ("state", .str "NY"),
                          ("zip", .str "10001")])]

/-- A `TransactionError` carrying a 3-D-Secure action token. -/
def exTdsErr : TransactionErrorInfo :=
  ⟨"card declined",
   some ⟨[[("three_d_secure_action_token_id", .str "3ds-token")]]⟩⟩

/-- The provider request body built from `exGoodPayload`. -/
def exBuiltBody : Value :=
  match create_subscription_prepare (some exGoodPayload) with
  | .ok (.inr b) => b
  | _ => .null

/-- A concrete active subscription for witnesses. -/
def exSub : Subscription :=
  ⟨"sub-1", "uuid-1", "active", none, .null, "USD",
   none, none, none, none, none, "acct-1"⟩

/-- Handler-outcome oracle in which every handler returns normally. -/
def hresOk : Handler → Xml → Except PyErr Unit := fun _ _ => .ok ()

/-- Handler-outcome oracle in which every handler raises. -/
def hresRaise : Handler → Xml → Except PyErr Unit := fun _ _ => .error .typeError

/-- The root element of a `canceled_subscription_notification` webhook. -/
def exCanceledRoot : Xml := .elem "canceled_subscription_notification" [] none

/-- A webhook environment with the secret configured. -/
def exEnv : WebhookEnv := ⟨none, some "sec", none⟩

/-- A webhook environment with no secret and no development mode. -/
def exEnvNoSecret : WebhookEnv := ⟨none, none, none⟩

/-!
## Theorems

Helper lemmas first, then one theorem per claim (with witnesses and
counterexamples where required).
-/

theorem isSafeChar_sanitizeChar (c : Char) : isSafeChar (sanitizeChar c) = true := by
  unfold sanitizeChar
  split
  · assumption
  · decide

theorem toLower_of_safe (c : Char) (h : isSafeChar c = true) : c.toLower = c := by
  simp only [isSafeChar, Bool.or_eq_true, Bool.and_eq_true, decide_eq_true_eq] at h
  rcases h with (((⟨h1, h2⟩ | ⟨h1, h2⟩) | hc) | hc) | hc
  · unfold Char.toLower
    rw [if_neg]
    omega
  · unfold Char.toLower
    rw [if_neg]
    omega
  · subst hc; decide
  · subst hc; decide
  · subst hc; decide

theorem toLower_sanitizeChar (c : Char) : (sanitizeChar c).toLower = sanitizeChar c :=
  toLower_of_safe _ (isSafeChar_sanitizeChar c)

theorem sanitizeChar_sanitizeChar (c : Char) :
    sanitizeChar (sanitizeChar c) = sanitizeChar c := by
  have h := isSafeChar_sanitizeChar c
  unfold sanitizeChar
  rw [if_pos]
  exact h

theorem map_fixpoint {α : Type} (f g : α → α) (h : ∀ x, f (g x) = g x)
    (l : List α) : (l.map g).map f = l.map g := by
  induction l with
  | nil => rfl
  | cons a t ih => simp [h, ih]

theorem account_code_list_idem (d : List Char) :
    ((((((d.map Char.toLower).map sanitizeChar).take 50).map Char.toLower).map
      sanitizeChar).take 50)
      = ((d.map Char.toLower).map sanitizeChar).take 50 := by
  rw [List.map_take, List.map_take,
      map_fixpoint Char.toLower sanitizeChar toLower_sanitizeChar,
      map_fixpoint sanitizeChar sanitizeChar sanitizeChar_sanitizeChar,
      List.take_take, Nat.min_self]

/-- C5: account-code derivation is the email lowercased with every
character outside `[a-z0-9._-]` replaced by `-` and truncated to 50
characters; consequently every output character is in the safe class,
the output length is at most 50, the function is deterministic, and it
is idempotent. -/
theorem account_code_contract (email : String) :
    _account_code_from_email email =
      ⟨((email.data.map Char.toLower).map sanitizeChar).take 50⟩ ∧
    (_account_code_from_email email).length ≤ 50 ∧
    (∀ c ∈ (_account_code_from_email email).data, isSafeChar c = true) ∧
    _account_code_from_email (_account_code_from_email email) =
      _account_code_from_email email ∧
    (∀ email2 : String, email = email2 →
      _account_code_from_email email = _account_code_from_email email2) := by
  refine ⟨rfl, ?_, ?_, ?_, ?_⟩
  · show (((email.data.map Char.toLower).map sanitizeChar).take 50).length ≤ 50
    rw [List.length_take]
    exact Nat.min_le_left _ _
  · intro c hc
    have hc2 := List.take_subset 50 _ hc
    obtain ⟨x, _, rfl⟩ := List.mem_map.mp hc2
    exact isSafeChar_sanitizeChar x
  · show String.mk _ = String.mk _
    exact congrArg String.mk (account_code_list_idem email.data)
  · intro email2 h
    rw [h]

/-- C5 witness: the contract applied to the spec's example input
`Jane.O'Brien+test@Example.com`. -/
theorem account_code_contract_witness :
    (_account_code_from_email "Jane.O\x27Brien+test@Example.com").length ≤ 50 ∧
    _account_code_from_email
        (_account_code_from_email "Jane.O\x27Brien+test@Example.com") =
      _account_code_from_email "Jane.O\x27Brien+test@Example.com" ∧
    _account_code_from_email "Jane.O\x27Brien+test@Example.com" =
      _account_code_from_email "Jane.O\x27Brien+test@Example.com" := by
  have h := account_code_contract "Jane.O\x27Brien+test@Example.com"
  exact ⟨h.2.1, h.2.2.2.1, h.2.2.2.2 _ rfl⟩

theorem check_basic_auth_pass (env : WebhookEnv) (a : BasicAuth)
    (proceed : Unit → WebhookResult)
    (hsec : env.recurly_webhook_secret.getD "" ≠ "")
    (huA : isAsciiStr (env.recurly_webhook_user.getD "recurly") = true)
    (hsA : isAsciiStr (env.recurly_webhook_secret.getD "") = true)
    (huser : a.username.getD "" = env.recurly_webhook_user.getD "recurly")
    (hpass : a.password.getD "" = env.recurly_webhook_secret.getD "") :
    _check_basic_auth env (some a) proceed = .ok (proceed ()) := by
  simp [_check_basic_auth, compare_digest, hsec, huser, hpass, huA, hsA]

/-- C1: on every request the gate actually admits — secret configured,
submitted username and password equal to the (ASCII) configured values,
so both `compare_digest` calls return and succeed — a well-formed
non-empty XML body is answered with HTTP 200 whatever the outcome of
the invoked handler; there are ten recognized event tags; a recognized
root tag invokes exactly the mapped handler and an unrecognized root
tag invokes none. -/
theorem webhook_ack_and_dispatch (env : WebhookEnv) (a : BasicAuth)
    (hres : Handler → Xml → Except PyErr Unit) (root : Xml)
    (hsec : env.recurly_webhook_secret.getD "" ≠ "")
    (huA : isAsciiStr (env.recurly_webhook_user.getD "recurly") = true)
    (hsA : isAsciiStr (env.recurly_webhook_secret.getD "") = true)
    (huser : a.username.getD "" = env.recurly_webhook_user.getD "recurly")
    (hpass : a.password.getD "" = env.recurly_webhook_secret.getD "") :
    _HANDLERS.length = 10 ∧
    (∀ h, List.lookup root.tag _HANDLERS = some h →
       webhook_endpoint env (some a) hres (.parsed root) = .ok ⟨200, [h]⟩) ∧
    (List.lookup root.tag _HANDLERS = none →
       webhook_endpoint env (some a) hres (.parsed root) = .ok ⟨200, []⟩) := by
  have hpassE : webhook_endpoint env (some a) hres (.parsed root) =
      .ok (recurly_webhook hres (.parsed root)) :=
    check_basic_auth_pass env a _ hsec huA hsA huser hpass
  refine ⟨rfl, ?_, ?_⟩
  · intro h hl
    rw [hpassE]
    cases hr : hres h root <;> simp [recurly_webhook, hl, hr]
  · intro hl
    rw [hpassE]
    simp [recurly_webhook, hl]

/-- C1 witness: a `canceled_subscription_notification` body with valid
(ASCII) credentials and a raising handler oracle still yields 200 and
invokes exactly the cancellation handler. -/
theorem webhook_ack_and_dispatch_witness :
    _HANDLERS.length = 10 ∧
    webhook_endpoint exEnv (some ⟨some "recurly", some "sec"⟩) hresRaise
      (.parsed exCanceledRoot) = .ok ⟨200, [.canceledSubscription]⟩ := by
  have h := webhook_ack_and_dispatch exEnv ⟨some "recurly", some "sec"⟩
    hresRaise exCanceledRoot (by decide) (by decide) (by decide) rfl rfl
  exact ⟨h.1, h.2.1 _ rfl⟩

/-- C7 (amended): the auth gate of the webhook receiver: empty secret
outside development mode gives 503; configured secret with absent
credentials gives 401; configured secret with present but mismatched
credentials gives 403 provided the submitted and configured
username/password strings are ASCII (`compare_digest` raises
`TypeError` on non-ASCII strings and the request then ends in the
app's 500 handler instead: see `webhook_auth_nonascii_500`) — in all
cases for every request body (so nothing is parsed), and no handler is
invoked. -/
theorem webhook_auth_gate :
    (∀ env auth hres body,
       env.recurly_webhook_secret.getD "" = "" →
       env.flask_env ≠ some "development" →
       webhook_endpoint env auth hres body = .ok ⟨503, []⟩) ∧
    (∀ env hres body,
       env.recurly_webhook_secret.getD "" ≠ "" →
       webhook_endpoint env none hres body = .ok ⟨401, []⟩) ∧
    (∀ env a hres body,
       env.recurly_webhook_secret.getD "" ≠ "" →
       isAsciiStr (a.username.getD "") = true →
       isAsciiStr (a.password.getD "") = true →
       isAsciiStr (env.recurly_webhook_user.getD "recurly") = true →
       isAsciiStr (env.recurly_webhook_secret.getD "") = true →
       ¬(a.username.getD "" = env.recurly_webhook_user.getD "recurly" ∧
         a.password.getD "" = env.recurly_webhook_secret.getD "") →
       webhook_endpoint env (some a) hres body = .ok ⟨403, []⟩) := by
  refine ⟨?_, ?_, ?_⟩
  · intro env auth hres body h1 h2
    simp [webhook_endpoint, _check_basic_auth, h1, h2]
  · intro env hres body h1
    simp [webhook_endpoint, _check_basic_auth, h1]
  · intro env a hres body h1 hu1 hp1 hu2 hp2 h2
    have hcond : ((a.username.getD "" == env.recurly_webhook_user.getD "recurly") &&
        (a.password.getD "" == env.recurly_webhook_secret.getD "")) = false := by
      by_cases hu : a.username.getD "" = env.recurly_webhook_user.getD "recurly"
      · have hp : a.password.getD "" ≠ env.recurly_webhook_secret.getD "" :=
          fun hp => h2 ⟨hu, hp⟩
        simp [hu, hp]
      · simp [hu]
    simp [webhook_endpoint, _check_basic_auth, compare_digest,
      h1, hu1, hp1, hu2, hp2, hcond]

/-- C7 counterexample: present but mismatched credentials whose
username contains a non-ASCII character make `compare_digest` raise
`TypeError` (webhooks.py line 65), so the program answers through the
app's generic 500 handler, not with the claimed 403. -/
theorem webhook_auth_nonascii_500 :
    webhook_endpoint exEnv (some ⟨some "\u00fc", some "wrong"⟩) hresOk
      (.parsed exCanceledRoot) = .error .typeError ∧
    webhook_endpoint exEnv (some ⟨some "\u00fc", some "wrong"⟩) hresOk
      (.parsed exCanceledRoot) ≠ .ok ⟨403, []⟩ := by
  constructor
  · rfl
  · intro h
    have h2 : (Except.error PyErr.typeError : Except PyErr WebhookResult) =
        .ok ⟨403, []⟩ := h
    exact Except.noConfusion h2

/-- C7 witness: the three rejections at concrete inputs — unset secret,
matching credentials absent, and a wrong (ASCII) password — each
independent of the (here well-formed) body. -/
theorem webhook_auth_gate_witness :
    webhook_endpoint exEnvNoSecret none hresOk (.parsed exCanceledRoot) =
      .ok ⟨503, []⟩ ∧
    webhook_endpoint exEnv none hresOk (.parsed exCanceledRoot) = .ok ⟨401, []⟩ ∧
    webhook_endpoint exEnv (some ⟨some "recurly", some "wrong"⟩) hresOk
      (.parsed exCanceledRoot) = .ok ⟨403, []⟩ := by
  refine ⟨?_, ?_, ?_⟩
  · exact webhook_auth_gate.1 exEnvNoSecret none hresOk _ rfl (by simp [exEnvNoSecret])
  · exact webhook_auth_gate.2.1 exEnv hresOk _ (by decide)
  · exact webhook_auth_gate.2.2 exEnv ⟨some "recurly", some "wrong"⟩ hresOk _
      (by decide) (by decide) (by decide) (by decide) (by decide) (by decide)

/-- C6: with an unconfigured provider client (`None`), every
`/api/account/*` endpoint and `/api/subscribe` returns HTTP 503 with
`success: false` and performs no provider call, for every request
body, path argument and call-outcome oracle. -/
theorem unconfigured_provider_503 :
    (∀ aR lR code, get_account none aR lR code =
       .ok (⟨503, failBody "Recurly not configured"⟩, [])) ∧
    (∀ lR code, list_subscriptions none lR code =
       .ok (⟨503, failBody "Recurly not configured"⟩, [])) ∧
    (∀ rq lR mR code, pause_subscription none rq lR mR code =
       .ok (⟨503, failBody "Recurly not configured"⟩, [])) ∧
    (∀ rq lR mR code, cancel_subscription none rq lR mR code =
       .ok (⟨503, failBody "Recurly not configured"⟩, [])) ∧
    (∀ rq lR mR code, change_plan none rq lR mR code =
       .ok (⟨503, failBody "Recurly not configured"⟩, [])) ∧
    (∀ rq bR code, update_billing none rq bR code =
       .ok (⟨503, failBody "Recurly not configured"⟩, [])) ∧
    (∀ iR code, list_invoices none iR code =
       .ok (⟨503, failBody "Recurly not configured"⟩, [])) ∧
    (∀ rq cR, create_subscription none rq cR =
       .ok (⟨503, failBody "Recurly API key not configured. See .env.example."⟩, [])) := by
  refine ⟨?_, ?_, ?_, ?_, ?_, ?_, ?_, ?_⟩ <;> intros <;> rfl

/-- C8: whenever the subscription-creation call reports a transaction
failure (the run reached the provider call, i.e. the call trace is
non-empty), the response status is 402 with `success: false`, and if
the error carries a truthy 3-D-Secure action token the response body
surfaces it under `three_d_secure_action_token_id`. -/
theorem subscribe_transaction_402 (reqJson : Option Value)
    (e : TransactionErrorInfo) (resp : Resp) (calls : List ProviderCall)
    (hrun : create_subscription (some ()) reqJson (.transactionError e) =
      .ok (resp, calls))
    (hcall : calls ≠ []) :
    resp.status = 402 ∧
    dictGet resp.body "success" = some (.bool false) ∧
    (∀ v, tds_token_of e = some v → truthy v = true →
       dictGet resp.body "three_d_secure_action_token_id" = some v) := by
  unfold create_subscription at hrun
  cases hprep : create_subscription_prepare reqJson with
  | error e2 => rw [hprep] at hrun; simp at hrun
  | ok s =>
    rw [hprep] at hrun
    cases s with
    | inl r =>
      simp only [Except.ok.injEq, Prod.mk.injEq] at hrun
      exact absurd hrun.2.symm hcall
    | inr body =>
      simp only [Except.ok.injEq, Prod.mk.injEq] at hrun
      obtain ⟨h1, _⟩ := hrun
      subst h1
      refine ⟨?_, ?_, ?_⟩
      · cases ht : tds_token_of e with
        | none => simp [create_subscription_dispatch, ht]
        | some v => cases htr : truthy v <;>
            simp [create_subscription_dispatch, ht, htr]
      · cases ht : tds_token_of e with
        | none => simp [create_subscription_dispatch, ht, dictGet, failBody]
        | some v => cases htr : truthy v <;>
            simp [create_subscription_dispatch, ht, htr, dictGet, failBody]
      · intro v hv htr
        simp [create_subscription_dispatch, hv, htr, dictGet]

/-- C8 witness: a valid payload whose provider call fails with a
3-D-Secure transaction error yields 402 and surfaces the token. -/
theorem subscribe_transaction_402_witness :
    (create_subscription_dispatch (.transactionError exTdsErr)).status = 402 ∧
    dictGet (create_subscription_dispatch (.transactionError exTdsErr)).body
      "success" = some (.bool false) ∧
    dictGet (create_subscription_dispatch (.transactionError exTdsErr)).body
      "three_d_secure_action_token_id" = some (.str "3ds-token") := by
  have h := subscribe_transaction_402 (some exGoodPayload) exTdsErr
    (create_subscription_dispatch (.transactionError exTdsErr))
    [.create_subscription_call exBuiltBody] (by rfl) (by simp)
  exact ⟨h.1, h.2.1, h.2.2 (.str "3ds-token") rfl rfl⟩

/-- C9: each mutating account operation looks the target up by listing
the account subscriptions with `state=active, limit=1` and taking the
first item: when the lookup yields none, the operation answers 404 with
`success: false` and its call trace contains no mutation; when it
yields a first item `s`, the trace is exactly the lookup followed by
the mutation applied to `s.id`.  The hypotheses on the request body
pin the values parsed before the lookup (pause cycles, cancel flag,
new plan code). -/
theorem active_subscription_targeting :
    (∀ rq mutR code resp calls,
       pause_subscription (some ()) rq (.ok []) mutR code = .ok (resp, calls) →
       resp.status = 404 ∧ dictGet resp.body "success" = some (.bool false) ∧
       calls = [.list_account_subscriptions_call ("code-" ++ code) activeSubParams]) ∧
    (∀ rq cv cycles mutR code s rest resp calls,
       pyDictGet (jsonOrEmpty rq) "remaining_pause_cycles" (.num 1) = .ok cv →
       pyInt cv = .ok cycles →
       pause_subscription (some ()) rq (.ok (s :: rest)) mutR code = .ok (resp, calls) →
       calls = [.list_account_subscriptions_call ("code-" ++ code) activeSubParams,
                .pause_subscription_call s.id cycles]) ∧
    (∀ rq mutR code resp calls,
       cancel_subscription (some ()) rq (.ok []) mutR code = .ok (resp, calls) →
       resp.status = 404 ∧ dictGet resp.body "success" = some (.bool false) ∧
       calls = [.list_account_subscriptions_call ("code-" ++ code) activeSubParams]) ∧
    (∀ rq ape mutR code s rest resp calls,
       pyDictGet (jsonOrEmpty rq) "at_end_of_billing_period" (.bool true) = .ok ape →
       cancel_subscription (some ()) rq (.ok (s :: rest)) mutR code = .ok (resp, calls) →
       calls = [.list_account_subscriptions_call ("code-" ++ code) activeSubParams,
                if truthy ape then .cancel_subscription_call s.id
                else .terminate_subscription_call s.id [("refund", Value.str "none")]]) ∧
    (∀ rq pv sp mutR code resp calls,
       pyDictGet (jsonOrEmpty rq) "plan_code" .null = .ok pv →
       asStrA (if truthy pv then pv else .str "") = .ok sp →
       pyStrip sp ≠ "" →
       change_plan (some ()) rq (.ok []) mutR code = .ok (resp, calls) →
       resp.status = 404 ∧ dictGet resp.body "success" = some (.bool false) ∧
       calls = [.list_account_subscriptions_call ("code-" ++ code) activeSubParams]) ∧
    (∀ rq pv sp mutR code s rest resp calls,
       pyDictGet (jsonOrEmpty rq) "plan_code" .null = .ok pv →
       asStrA (if truthy pv then pv else .str "") = .ok sp →
       pyStrip sp ≠ "" →
       change_plan (some ()) rq (.ok (s :: rest)) mutR code = .ok (resp, calls) →
       calls = [.list_account_subscriptions_call ("code-" ++ code) activeSubParams,
                .update_subscription_call s.id (pyStrip sp)]) := by
  refine ⟨?_, ?_, ?_, ?_, ?_, ?_⟩
  · intro rq mutR code resp calls h
    cases hg : pyDictGet (jsonOrEmpty rq) "remaining_pause_cycles" (.num 1) with
    | error e =>
      simp only [pause_subscription, hg] at h
      exact Except.noConfusion h
    | ok cv =>
      cases hi : pyInt cv with
      | error e =>
        simp only [pause_subscription, hg, hi] at h
        exact Except.noConfusion h
      | ok cycles =>
        simp only [pause_subscription, hg, hi] at h
        unfold pause_dispatch _get_active_subscription at h
        simp only [RecurlyResult.map, List.head?, Except.ok.injEq,
          Prod.mk.injEq] at h
        obtain ⟨h1, h2⟩ := h
        subst h1; subst h2
        exact ⟨rfl, rfl, rfl⟩
  · intro rq cv cycles mutR code s rest resp calls hg hi h
    simp only [pause_subscription, hg, hi] at h
    unfold pause_dispatch _get_active_subscription at h
    simp only [RecurlyResult.map, List.head?] at h
    cases mutR <;>
      first
        | exact Except.noConfusion h
        | (simp only [Except.ok.injEq, Prod.mk.injEq] at h; exact h.2.symm)
  · intro rq mutR code resp calls h
    cases hg : pyDictGet (jsonOrEmpty rq) "at_end_of_billing_period" (.bool true) with
    | error e =>
      simp only [cancel_subscription, hg] at h
      exact Except.noConfusion h
    | ok ape =>
      simp only [cancel_subscription, hg] at h
      unfold cancel_dispatch _get_active_subscription at h
      simp only [RecurlyResult.map, List.head?, Except.ok.injEq,
        Prod.mk.injEq] at h
      obtain ⟨h1, h2⟩ := h
      subst h1; subst h2
      exact ⟨rfl, rfl, rfl⟩
  · intro rq ape mutR code s rest resp calls hg h
    simp only [cancel_subscription, hg] at h
    unfold cancel_dispatch _get_active_subscription at h
    simp only [RecurlyResult.map, List.head?] at h
    cases mutR <;>
      first
        | exact Except.noConfusion h
        | (simp only [Except.ok.injEq, Prod.mk.injEq] at h; exact h.2.symm)
  · intro rq pv sp mutR code resp calls hg ha hne h
    simp only [change_plan, hg, ha, if_neg hne] at h
    unfold change_plan_dispatch _get_active_subscription at h
    simp only [RecurlyResult.map, List.head?, Except.ok.injEq,
      Prod.mk.injEq] at h
    obtain ⟨h1, h2⟩ := h
    subst h1; subst h2
    exact ⟨rfl, rfl, rfl⟩
  · intro rq pv sp mutR code s rest resp calls hg ha hne h
    simp only [change_plan, hg, ha, if_neg hne] at h
    unfold change_plan_dispatch _get_active_subscription at h
    simp only [RecurlyResult.map, List.head?] at h
    cases mutR <;>
      first
        | exact Except.noConfusion h
        | (simp only [Except.ok.injEq, Prod.mk.injEq] at h; exact h.2.symm)

/-- C9 witness: the six parts applied at concrete inputs — empty lookup
gives 404 without mutation; a first item `exSub` is the mutation target
for pause (default 1 cycle), cancel (default at period end) and
change-plan (`premium-monthly`). -/
theorem active_subscription_targeting_witness :
    ((⟨404, failBody "No active subscription found"⟩ : Resp).status = 404 ∧
      dictGet (⟨404, failBody "No active subscription found"⟩ : Resp).body "success" =
        some (.bool false) ∧
      [ProviderCall.list_account_subscriptions_call ("code-" ++ "alice") activeSubParams] =
        [ProviderCall.list_account_subscriptions_call ("code-" ++ "alice") activeSubParams]) ∧
    ([ProviderCall.list_account_subscriptions_call ("code-" ++ "alice") activeSubParams,
      ProviderCall.pause_subscription_call "sub-1" 1] =
      [ProviderCall.list_account_subscriptions_call ("code-" ++ "alice") activeSubParams,
       ProviderCall.pause_subscription_call exSub.id 1]) ∧
    ((⟨404, failBody "No active subscription found"⟩ : Resp).status = 404 ∧
      dictGet (⟨404, failBody "No active subscription found"⟩ : Resp).body "success" =
        some (.bool false) ∧
      [ProviderCall.list_account_subscriptions_call ("code-" ++ "alice") activeSubParams] =
        [ProviderCall.list_account_subscriptions_call ("code-" ++ "alice") activeSubParams]) ∧
    ([ProviderCall.list_account_subscriptions_call ("code-" ++ "alice") activeSubParams,
      ProviderCall.cancel_subscription_call "sub-1"] =
      [ProviderCall.list_account_subscriptions_call ("code-" ++ "alice") activeSubParams,
       if truthy (.bool true) then ProviderCall.cancel_subscription_call exSub.id
       else ProviderCall.terminate_subscription_call exSub.id
         [("refund", Value.str "none")]]) ∧
    ((⟨404, failBody "No active subscription found"⟩ : Resp).status = 404 ∧
      dictGet (⟨404, failBody "No active subscription found"⟩ : Resp).body "success" =
        some (.bool false) ∧
      [ProviderCall.list_account_subscriptions_call ("code-" ++ "alice") activeSubParams] =
        [ProviderCall.list_account_subscriptions_call ("code-" ++ "alice") activeSubParams]) ∧
    ([ProviderCall.list_account_subscriptions_call ("code-" ++ "alice") activeSubParams,
      ProviderCall.update_subscription_call "sub-1" "premium-monthly"] =
      [ProviderCall.list_account_subscriptions_call ("code-" ++ "alice") activeSubParams,
       ProviderCall.update_subscription_call exSub.id (pyStrip "premium-monthly")]) := by
  have T := active_subscription_targeting
  refine ⟨?_, ?_, ?_, ?_, ?_, ?_⟩
  · exact T.1 none (.ok exSub) "alice"
      ⟨404, failBody "No active subscription found"⟩
      [ProviderCall.list_account_subscriptions_call ("code-" ++ "alice") activeSubParams]
      (by rfl)
  · exact T.2.1 none (.num 1) 1 (.notFoundError "nf") "alice" exSub []
      ⟨404, failBody "Subscription not found"⟩
      [ProviderCall.list_account_subscriptions_call ("code-" ++ "alice") activeSubParams,
       ProviderCall.pause_subscription_call "sub-1" 1]
      rfl rfl (by rfl)
  · exact T.2.2.1 none (.ok exSub) "alice"
      ⟨404, failBody "No active subscription found"⟩
      [ProviderCall.list_account_subscriptions_call ("code-" ++ "alice") activeSubParams]
      (by rfl)
  · exact T.2.2.2.1 none (.bool true) (.notFoundError "nf") "alice" exSub []
      ⟨404, failBody "Subscription not found"⟩
      [ProviderCall.list_account_subscriptions_call ("code-" ++ "alice") activeSubParams,
       ProviderCall.cancel_subscription_call "sub-1"]
      rfl (by rfl)
  · exact T.2.2.2.2.1 (some (.obj [("plan_code", .str "premium-monthly")]))
      (.str "premium-monthly") "premium-monthly" (.ok exSub) "alice"
      ⟨404, failBody "No active subscription found"⟩
      [ProviderCall.list_account_subscriptions_call ("code-" ++ "alice") activeSubParams]
      rfl rfl (by decide) (by rfl)
  · exact T.2.2.2.2.2 (some (.obj [("plan_code", .str "premium-monthly")]))
      (.str "premium-monthly") "premium-monthly" (.notFoundError "nf") "alice" exSub []
      ⟨404, failBody "Subscription or plan not found"⟩
      [ProviderCall.list_account_subscriptions_call ("code-" ++ "alice") activeSubParams,
       ProviderCall.update_subscription_call "sub-1" "premium-monthly"]
      rfl rfl (by decide) (by rfl)

theorem string_eq_of_data_eq {k k2 : String} (h : k.data = k2.data) : k = k2 := by
  cases k; cases k2; exact congrArg String.mk h

theorem requiredMsg_injective : Function.Injective requiredMsg := by
  intro k k2 h
  have hd := congrArg String.data h
  rw [requiredMsg, requiredMsg, String.data_append, String.data_append,
    String.data_append, String.data_append, List.append_assoc, List.append_assoc] at hd
  have h1 := List.append_cancel_left hd
  exact string_eq_of_data_eq (List.append_cancel_right h1)

theorem emailStep_ok_cases (fields : List (String × Value)) (errs errs' : List String)
    (h : emailStep fields errs = .ok errs') :
    errs' = errs ∨ errs' = errs ++ [emailErrMsg] := by
  cases hv : dictGetD fields "email" (.str "") <;>
    simp only [emailStep, hv] at h <;>
    split at h <;>
      first
        | exact Except.noConfusion h
        | (simp only [Except.ok.injEq] at h
           split at h
           · exact Or.inr h.symm
           · exact Or.inl h.symm)
        | (simp only [Except.ok.injEq] at h; exact Or.inl h.symm)

theorem planStep_ok_cases (fields : List (String × Value)) (errs errs' : List String)
    (h : planStep fields errs = .ok errs') :
    errs' = errs ∨
    errs' = errs ++ [planMsg (dictGetD fields "plan_code" (.str ""))] := by
  cases hv : dictGetD fields "plan_code" (.str "") <;>
    simp only [planStep, hv] at h <;>
    split at h <;>
      first
        | exact Except.noConfusion h
        | (simp only [Except.ok.injEq] at h
           split at h
           · exact Or.inr h.symm
           · exact Or.inl h.symm)
        | (simp only [Except.ok.injEq] at h; exact Or.inr h.symm)
        | (simp only [Except.ok.injEq] at h; exact Or.inl h.symm)

theorem mem_required (data : List (String × Value)) (keys : List String)
    (m : String) (h : m ∈ _required data keys) :
    ∃ k, k ∈ keys ∧ m = requiredMsg k := by
  unfold _required at h
  rw [List.mem_flatten] at h
  obtain ⟨l, hl, hm⟩ := h
  rw [List.mem_map] at hl
  obtain ⟨k, hk, rfl⟩ := hl
  refine ⟨k, hk, ?_⟩
  revert hm
  cases dictGetD data k (.str "") <;> intro hm <;> simp at hm <;>
    first
      | exact hm
      | exact hm.2

theorem stateStepB_ok_cases (afields : List (String × Value)) (errs errs' : List String)
    (h : stateStepBackend afields errs = .ok errs') :
    errs' = errs ∨ ∃ x, errs' = errs ++ [stateMsgBackend x] := by
  cases hv : dictGetD afields "state" (.str "") <;>
    simp only [stateStepBackend, hv] at h <;>
    split at h <;>
      first
        | exact Except.noConfusion h
        | (simp only [Except.ok.injEq] at h
           split at h
           · exact Or.inr ⟨_, h.symm⟩
           · exact Or.inl h.symm)
        | (simp only [Except.ok.injEq] at h; exact Or.inl h.symm)

theorem zipStep_cases (afields : List (String × Value)) (errs : List String) :
    zipStep afields errs = errs ∨ zipStep afields errs = errs ++ [zipMsg] := by
  simp only [zipStep]
  split
  · exact Or.inr rfl
  · exact Or.inl rfl

theorem addressStepB_ok_cases (fields : List (String × Value)) (errs errs' : List String)
    (h : addressStepBackend fields errs = .ok errs') :
    ∃ t, errs' = errs ++ t ∧ ∀ m ∈ t, isAddrMsgB m := by
  cases hv : dictGetD fields "address" .null <;>
    simp only [addressStepBackend, hv] at h
  case obj afields =>
    cases hs : stateStepBackend afields
        (errs ++ _required afields ["address1", "city", "state", "zip"]) with
    | error e => rw [hs] at h; exact Except.noConfusion h
    | ok e2 =>
      rw [hs] at h
      simp only [Except.ok.injEq] at h
      have hreq : ∀ m ∈ _required afields ["address1", "city", "state", "zip"],
          isAddrMsgB m := by
        intro m hm
        obtain ⟨k, hk, rfl⟩ := mem_required _ _ _ hm
        fin_cases hk
        · exact Or.inr (Or.inl rfl)
        · exact Or.inr (Or.inr (Or.inl rfl))
        · exact Or.inr (Or.inr (Or.inr (Or.inl rfl)))
        · exact Or.inr (Or.inr (Or.inr (Or.inr (Or.inl rfl))))
      rcases stateStepB_ok_cases _ _ _ hs with h2 | ⟨x, h2⟩ <;>
        rcases zipStep_cases afields e2 with h3 | h3 <;>
          subst h2 <;> rw [h3] at h <;> subst h
      · exact ⟨_, rfl, hreq⟩
      · refine ⟨_required afields ["address1", "city", "state", "zip"] ++ [zipMsg],
          by rw [List.append_assoc], ?_⟩
        intro m hm
        rcases List.mem_append.mp hm with hm | hm
        · exact hreq m hm
        · simp only [List.mem_singleton] at hm
          subst hm
          exact Or.inr (Or.inr (Or.inr (Or.inr (Or.inr (Or.inr rfl)))))
      · refine ⟨_required afields ["address1", "city", "state", "zip"] ++ [stateMsgBackend x],
          by rw [List.append_assoc], ?_⟩
        intro m hm
        rcases List.mem_append.mp hm with hm | hm
        · exact hreq m hm
        · simp only [List.mem_singleton] at hm
          subst hm
          exact Or.inr (Or.inr (Or.inr (Or.inr (Or.inr (Or.inl ⟨x, rfl⟩)))))
      · refine ⟨_required afields ["address1", "city", "state", "zip"]
            ++ [stateMsgBackend x] ++ [zipMsg],
          by rw [List.append_assoc, List.append_assoc, List.append_assoc], ?_⟩
        intro m hm
        rcases List.mem_append.mp hm with hm | hm
        · rcases List.mem_append.mp hm with hm | hm
          · exact hreq m hm
          · simp only [List.mem_singleton] at hm
            subst hm
            exact Or.inr (Or.inr (Or.inr (Or.inr (Or.inr (Or.inl ⟨x, rfl⟩)))))
        · simp only [List.mem_singleton] at hm
          subst hm
          exact Or.inr (Or.inr (Or.inr (Or.inr (Or.inr (Or.inr rfl)))))
  all_goals
    simp only [Except.ok.injEq] at h
    subst h
    refine ⟨[addrObjMsg], rfl, ?_⟩
    intro m hm
    simp only [List.mem_singleton] at hm
    subst hm
    exact Or.inl rfl

theorem isStrOrFalsy_truthy {v : Value} (h : isStrOrFalsy v = true)
    (ht : truthy v = true) : ∃ s, v = .str s := by
  cases v <;>
    first
      | exact ⟨_, rfl⟩
      | (simp only [isStrOrFalsy] at h; simp [ht] at h)

theorem emailStep_safe (fields : List (String × Value))
    (h : isStrOrFalsy (dictGetD fields "email" (.str "")) = true)
    (errs : List String) : ∃ e, emailStep fields errs = .ok e := by
  by_cases ht : truthy (dictGetD fields "email" (.str "")) = true
  · obtain ⟨s, hs⟩ := isStrOrFalsy_truthy h ht
    simp only [emailStep, hs]
    split
    · exact ⟨_, rfl⟩
    · exact ⟨_, rfl⟩
  · simp only [Bool.not_eq_true] at ht
    simp [emailStep, ht]

theorem planStep_safe (fields : List (String × Value))
    (h : notUnhashableTruthy (dictGetD fields "plan_code" (.str "")) = true)
    (errs : List String) : ∃ e, planStep fields errs = .ok e := by
  by_cases ht : truthy (dictGetD fields "plan_code" (.str "")) = true
  · cases hv : dictGetD fields "plan_code" (.str "") <;>
      rw [hv] at ht h <;> simp only [planStep, hv, notUnhashableTruthy] at h ⊢ <;>
      first
        | (split
           · exact ⟨_, rfl⟩
           · exact ⟨_, rfl⟩)
        | (simp [truthy, h] at ht)
  · simp only [Bool.not_eq_true] at ht
    simp [planStep, ht]

theorem stateStepB_safe (afields : List (String × Value))
    (h : isStrOrFalsy (dictGetD afields "state" (.str "")) = true)
    (errs : List String) : ∃ e, stateStepBackend afields errs = .ok e := by
  by_cases ht : truthy (dictGetD afields "state" (.str "")) = true
  · obtain ⟨s, hs⟩ := isStrOrFalsy_truthy h ht
    simp only [stateStepBackend, hs]
    split
    · exact ⟨_, rfl⟩
    · exact ⟨_, rfl⟩
  · simp only [Bool.not_eq_true] at ht
    simp [stateStepBackend, ht]

theorem addressStepB_safe (fields : List (String × Value))
    (h : (match dictGetD fields "address" .null with
          | .obj afields => isStrOrFalsy (dictGetD afields "state" (.str ""))
          | _ => true) = true)
    (errs : List String) : ∃ e, addressStepBackend fields errs = .ok e := by
  cases hv : dictGetD fields "address" .null <;>
    rw [hv] at h <;> simp only [addressStepBackend, hv]
  case obj afields =>
    obtain ⟨e, he⟩ := stateStepB_safe afields h
      (errs ++ _required afields ["address1", "city", "state", "zip"])
    rw [he]
    exact ⟨_, rfl⟩
  all_goals exact ⟨_, rfl⟩

/-- C2 (amended): the backend validator returns a single-error list on
every non-dict input, and returns an error list without raising on
every dict whose email/state values are strings whenever truthy and
whose plan code is not a truthy list or dict.  (As stated over every
input whatsoever the claim fails: see
`validate_raises_on_nonstring_email`.) -/
theorem validate_total_amended :
    (∀ v : Value, (∀ fs, v ≠ .obj fs) →
       validate_subscription_payload v = .ok [nonDictMsg]) ∧
    (∀ fields, validatorSafe fields = true →
       exceptIsOk (validate_subscription_payload (.obj fields)) = true) := by
  constructor
  · intro v hv
    cases v with
    | obj fs => exact absurd rfl (hv fs)
    | str s => rfl
    | num n => rfl
    | bool b => rfl
    | null => rfl
    | arr xs => rfl
  · intro fields hsafe
    simp only [validatorSafe, Bool.and_eq_true] at hsafe
    obtain ⟨⟨h1, h2⟩, h3⟩ := hsafe
    obtain ⟨e1, he1⟩ := emailStep_safe fields h1 (_required fields REQUIRED_KEYS)
    obtain ⟨e2, he2⟩ := planStep_safe fields h2 e1
    obtain ⟨e3, he3⟩ := addressStepB_safe fields h3 e2
    simp [validate_subscription_payload, he1, he2, he3, exceptIsOk]

/-- C2 counterexample: a dict whose `email` field holds a number makes
`validate_subscription_payload` raise a `TypeError` (from `re.match`)
instead of returning an error list, refuting the claim for arbitrary
JSON-decodable input. -/
theorem validate_raises_on_nonstring_email :
    validate_subscription_payload (.obj [("email", .num 1)]) =
      .error .typeError := rfl

/-- C2 witness: the amended totality applied at a non-dict input and at
the empty dict. -/
theorem validate_total_amended_witness :
    validate_subscription_payload (.num 0) = .ok [nonDictMsg] ∧
    exceptIsOk (validate_subscription_payload (.obj [])) = true := by
  have h := validate_total_amended
  exact ⟨h.1 (.num 0) (fun fs hh => Value.noConfusion hh), h.2 [] rfl⟩

/-- C4 (amended): for every dict payload whose email value is a
non-empty string not matching the regex, whenever the validator returns
an error list, that list contains the email-format error (and is in
particular non-empty).  (As stated for every non-matching string the
claim fails at the empty string: see `email_blank_not_flagged`.) -/
theorem email_format_error_flagged (fields : List (String × Value))
    (s : String) (errs : List String)
    (hemail : dictGetD fields "email" (.str "") = .str s)
    (hne : s ≠ "") (hnm : emailMatch s = false)
    (hrun : validate_subscription_payload (.obj fields) = .ok errs) :
    emailErrMsg ∈ errs ∧ errs ≠ [] := by
  have hie : s.isEmpty = false := by
    rw [← Bool.not_eq_true, String.isEmpty_iff]
    exact hne
  have he : emailStep fields (_required fields REQUIRED_KEYS) =
      .ok (_required fields REQUIRED_KEYS ++ [emailErrMsg]) := by
    simp [emailStep, hemail, truthy, hie, hnm]
  simp only [validate_subscription_payload, he] at hrun
  cases hp : planStep fields (_required fields REQUIRED_KEYS ++ [emailErrMsg]) with
  | error e => rw [hp] at hrun; exact Except.noConfusion hrun
  | ok e2 =>
    rw [hp] at hrun
    obtain ⟨t3, rfl, _⟩ := addressStepB_ok_cases _ _ _ hrun
    have hm : emailErrMsg ∈ e2 := by
      rcases planStep_ok_cases _ _ _ hp with h2 | h2 <;> subst h2 <;> simp
    exact ⟨List.mem_append_left _ hm,
      List.ne_nil_of_mem (List.mem_append_left _ hm)⟩

/-- C4 counterexample: the empty-string email does not match the regex,
yet validation of a payload carrying it returns an error list without
any email-format error (the format check is guarded by truthiness, so a
blank email only produces the required-field message). -/
theorem email_blank_not_flagged :
    emailMatch "" = false ∧
    validate_subscription_payload (.obj [("email", .str "")]) =
      .ok [requiredMsg "recurly_token", requiredMsg "plan_code",
           requiredMsg "first_name", requiredMsg "last_name",
           requiredMsg "email", addrObjMsg] ∧
    emailErrMsg ∉ [requiredMsg "recurly_token", requiredMsg "plan_code",
           requiredMsg "first_name", requiredMsg "last_name",
           requiredMsg "email", addrObjMsg] :=
  ⟨rfl, rfl, by decide⟩

/-- C4 witness: a payload with email `"bad"` yields an error list that
contains the email-format error. -/
theorem email_format_error_flagged_witness :
    emailErrMsg ∈ [requiredMsg "recurly_token", requiredMsg "plan_code",
      requiredMsg "first_name", requiredMsg "last_name", emailErrMsg,
      addrObjMsg] ∧
    ([requiredMsg "recurly_token", requiredMsg "plan_code",
      requiredMsg "first_name", requiredMsg "last_name", emailErrMsg,
      addrObjMsg] : List String) ≠ [] :=
  email_format_error_flagged [("email", .str "bad")] "bad" _ rfl
    (by decide) rfl (by rfl)

theorem count_required (data : List (String × Value)) (keys : List String)
    (k : String) (hk : k ∈ keys) (hnd : keys.Nodup) :
    List.count (requiredMsg k) (_required data keys) =
      if missingKey data k then 1 else 0 := by
  induction keys with
  | nil => cases hk
  | cons a rest ih =>
    have hblock : _required data (a :: rest) =
        (match dictGetD data a (.str "") with
         | .str s => if isBlank s then [requiredMsg a] else []
         | _ => [requiredMsg a]) ++ _required data rest := by
      simp [_required]
    rw [hblock, List.count_append]
    rcases List.mem_cons.mp hk with rfl | hk2
    · have hb : List.count (requiredMsg k)
          (match dictGetD data k (.str "") with
           | .str s => if isBlank s then [requiredMsg k] else []
           | _ => [requiredMsg k]) = if missingKey data k then 1 else 0 := by
        unfold missingKey
        cases dictGetD data k (.str "") <;> simp
        split <;> simp
      have hr : List.count (requiredMsg k) (_required data rest) = 0 := by
        rw [List.count_eq_zero]
        intro hmem
        obtain ⟨k', hk', heq⟩ := mem_required _ _ _ hmem
        have hkk : k' = k := requiredMsg_injective heq.symm
        subst hkk
        exact (List.nodup_cons.mp hnd).1 hk'
      rw [hb, hr, Nat.add_zero]
    · have ha : k ≠ a := by
        rintro rfl
        exact (List.nodup_cons.mp hnd).1 hk2
      have hb : List.count (requiredMsg k)
          (match dictGetD data a (.str "") with
           | .str s => if isBlank s then [requiredMsg a] else []
           | _ => [requiredMsg a]) = 0 := by
        rw [List.count_eq_zero]
        intro hmem
        have heq : requiredMsg k = requiredMsg a := by
          revert hmem
          cases dictGetD data a (.str "") <;> intro hmem <;> simp at hmem <;>
            first
              | exact hmem
              | exact hmem.2
        exact ha (requiredMsg_injective heq)
      rw [hb, ih hk2 (List.nodup_cons.mp hnd).2, Nat.zero_add]

theorem emailErrMsg_ne_required : ∀ k ∈ REQUIRED_KEYS, requiredMsg k ≠ emailErrMsg := by
  decide

theorem addrObjMsg_ne_required : ∀ k ∈ REQUIRED_KEYS, requiredMsg k ≠ addrObjMsg := by
  decide

theorem zipMsg_ne_required : ∀ k ∈ REQUIRED_KEYS, requiredMsg k ≠ zipMsg := by
  decide

theorem nested_key_not_top : ∀ k ∈ ["address1", "city", "state", "zip"],
    k ∉ REQUIRED_KEYS := by
  decide

theorem planMsg_ne_required (v : Value) (k : String) (hk : k ∈ REQUIRED_KEYS) :
    planMsg v ≠ requiredMsg k := by
  intro h
  have hd := congrArg (fun s => s.data.take 13) h
  simp only [planMsg, String.data_append, List.append_assoc] at hd
  rw [List.take_append_of_le_length (by decide)] at hd
  fin_cases hk <;> revert hd <;> decide

theorem stateMsgB_ne_required (x : String) (k : String) (hk : k ∈ REQUIRED_KEYS) :
    stateMsgBackend x ≠ requiredMsg k := by
  intro h
  have hd := congrArg (fun s => s.data.take 13) h
  simp only [stateMsgBackend, String.data_append, List.append_assoc] at hd
  rw [List.take_append_of_le_length (by decide)] at hd
  fin_cases hk <;> revert hd <;> decide

/-- C3 (amended): whenever the validator returns a list on a dict
payload with at least one of the five required fields missing
(absent, non-string, or blank), the list is non-empty and contains
exactly one `'<key>' is required.` message per missing field — and
none for a present one.  (As stated over every such payload the claim
fails, because the validator can instead raise: see
`validate_raises_on_missing_required`.) -/
theorem required_fields_counted (fields : List (String × Value)) (k : String)
    (errs : List String)
    (hk : k ∈ REQUIRED_KEYS) (hmiss : missingKey fields k = true)
    (hrun : validate_subscription_payload (.obj fields) = .ok errs) :
    errs ≠ [] ∧
    (∀ k2 ∈ REQUIRED_KEYS, List.count (requiredMsg k2) errs =
       if missingKey fields k2 then 1 else 0) := by
  cases he : emailStep fields (_required fields REQUIRED_KEYS) with
  | error e =>
    simp only [validate_subscription_payload, he] at hrun
    exact Except.noConfusion hrun
  | ok e1 =>
    simp only [validate_subscription_payload, he] at hrun
    cases hp : planStep fields e1 with
    | error e => rw [hp] at hrun; exact Except.noConfusion hrun
    | ok e2 =>
      rw [hp] at hrun
      obtain ⟨t3, rfl, ht3⟩ := addressStepB_ok_cases _ _ _ hrun
      have hcnt : ∀ k2 ∈ REQUIRED_KEYS, List.count (requiredMsg k2) (e2 ++ t3) =
          if missingKey fields k2 then 1 else 0 := by
        intro k2 hk2
        rw [List.count_append]
        have h0 : List.count (requiredMsg k2) (_required fields REQUIRED_KEYS) =
            if missingKey fields k2 then 1 else 0 :=
          count_required fields REQUIRED_KEYS k2 hk2 (by decide)
        have ht3c : List.count (requiredMsg k2) t3 = 0 := by
          rw [List.count_eq_zero]
          intro hmem
          rcases ht3 _ hmem with h | h | h | h | h | ⟨x, h⟩ | h
          · exact addrObjMsg_ne_required k2 hk2 h
          · exact nested_key_not_top "address1" (by decide)
              (requiredMsg_injective h ▸ hk2)
          · exact nested_key_not_top "city" (by decide)
              (requiredMsg_injective h ▸ hk2)
          · exact nested_key_not_top "state" (by decide)
              (requiredMsg_injective h ▸ hk2)
          · exact nested_key_not_top "zip" (by decide)
              (requiredMsg_injective h ▸ hk2)
          · exact stateMsgB_ne_required x k2 hk2 h.symm
          · exact zipMsg_ne_required k2 hk2 h
        have he1c : List.count (requiredMsg k2) e1 =
            List.count (requiredMsg k2) (_required fields REQUIRED_KEYS) := by
          rcases emailStep_ok_cases _ _ _ he with h1 | h1 <;> subst h1
          · rfl
          · rw [List.count_append]
            have hz : List.count (requiredMsg k2) [emailErrMsg] = 0 := by
              rw [List.count_eq_zero]
              intro hmem
              simp only [List.mem_singleton] at hmem
              exact emailErrMsg_ne_required k2 hk2 hmem
            omega
        have he2c : List.count (requiredMsg k2) e2 =
            List.count (requiredMsg k2) e1 := by
          rcases planStep_ok_cases _ _ _ hp with h1 | h1 <;> subst h1
          · rfl
          · rw [List.count_append]
            have hz : List.count (requiredMsg k2)
                [planMsg (dictGetD fields "plan_code" (.str ""))] = 0 := by
              rw [List.count_eq_zero]
              intro hmem
              simp only [List.mem_singleton] at hmem
              exact planMsg_ne_required _ k2 hk2 hmem.symm
            omega
        omega
      refine ⟨?_, hcnt⟩
      have h1 := hcnt k hk
      rw [if_pos hmiss] at h1
      have hmem : requiredMsg k ∈ e2 ++ t3 := List.count_pos_iff.mp (by omega)
      exact List.ne_nil_of_mem hmem

/-- C3 counterexample: the payload `{"email": 123}` has a missing (not
a string) required field, yet the validator raises a `TypeError`
instead of returning the required-field error list. -/
theorem validate_raises_on_missing_required :
    missingKey [("email", .num 123)] "email" = true ∧
    validate_subscription_payload (.obj [("email", .num 123)]) =
      .error .typeError :=
  ⟨rfl, rfl⟩

/-- C3 witness: the empty payload misses all five required fields and
each receives exactly one message. -/
theorem required_fields_counted_witness :
    ([requiredMsg "recurly_token", requiredMsg "plan_code",
      requiredMsg "first_name", requiredMsg "last_name",
      requiredMsg "email", addrObjMsg] : List String) ≠ [] ∧
    List.count (requiredMsg "recurly_token")
      [requiredMsg "recurly_token", requiredMsg "plan_code",
       requiredMsg "first_name", requiredMsg "last_name",
       requiredMsg "email", addrObjMsg] =
      if missingKey [] "recurly_token" then 1 else 0 := by
  have h := required_fields_counted [] "recurly_token"
    [requiredMsg "recurly_token", requiredMsg "plan_code",
     requiredMsg "first_name", requiredMsg "last_name",
     requiredMsg "email", addrObjMsg] (by decide) rfl rfl
  exact ⟨h.1, h.2 "recurly_token" (by decide)⟩

theorem requiredBlock_length (v : Value) (m1 m2 : String) :
    (match v with
     | .str s => if isBlank s then [m1] else []
     | _ => [m1]).length =
    (match v with
     | .str s => if isBlank s then [m2] else []
     | _ => [m2]).length := by
  cases v with
  | str s =>
    show (if isBlank s = true then [m1] else []).length =
      (if isBlank s = true then [m2] else []).length
    by_cases h : isBlank s = true
    · rw [if_pos h, if_pos h]; rfl
    · rw [if_neg h, if_neg h]
  | num n => rfl
  | bool b => rfl
  | null => rfl
  | arr xs => rfl
  | obj fs => rfl

theorem required_addr_sv_length (afields : List (String × Value)) :
    (_required_addr_sv afields).length =
    (_required afields ["address1", "city", "state", "zip"]).length := by
  have h1 := requiredBlock_length (dictGetD afields "address1" (.str ""))
    (addrRequiredMsgSv "address1") (requiredMsg "address1")
  have h2 := requiredBlock_length (dictGetD afields "city" (.str ""))
    (addrRequiredMsgSv "city") (requiredMsg "city")
  have h3 := requiredBlock_length (dictGetD afields "state" (.str ""))
    (addrRequiredMsgSv "state") (requiredMsg "state")
  have h4 := requiredBlock_length (dictGetD afields "zip" (.str ""))
    (addrRequiredMsgSv "zip") (requiredMsg "zip")
  simp only [_required_addr_sv, _required, List.map, List.flatten_cons,
    List.flatten_nil, List.length_append, List.length_nil] at h1 h2 h3 h4 ⊢
  omega

theorem stateSteps_length (afields : List (String × Value)) (e1 e2 : List String)
    (hlen : e1.length = e2.length) :
    (stateStepSv afields e1).map List.length =
      (stateStepBackend afields e2).map List.length := by
  cases hv : dictGetD afields "state" (.str "") <;>
    simp only [stateStepSv, stateStepBackend, hv] <;>
    split <;>
    all_goals simp [Except.map, List.length_append, hlen, apply_ite List.length]

theorem zipStep_length (afields : List (String × Value)) (e1 e2 : List String)
    (hlen : e1.length = e2.length) :
    (zipStep afields e1).length = (zipStep afields e2).length := by
  simp only [zipStep]
  split <;> simp [hlen]

theorem addressSteps_length (fields : List (String × Value)) (e1 e2 : List String)
    (hlen : e1.length = e2.length) :
    (addressStepSv fields e1).map List.length =
      (addressStepBackend fields e2).map List.length := by
  cases hv : dictGetD fields "address" .null <;>
    simp only [addressStepSv, addressStepBackend, hv]
  case obj afields =>
    have hr : (e1 ++ _required_addr_sv afields).length =
        (e2 ++ _required afields ["address1", "city", "state", "zip"]).length := by
      simp [List.length_append, hlen, required_addr_sv_length]
    have hs := stateSteps_length afields _ _ hr
    cases hsv : stateStepSv afields (e1 ++ _required_addr_sv afields) with
    | error e =>
      cases hsb : stateStepBackend afields
          (e2 ++ _required afields ["address1", "city", "state", "zip"]) with
      | error e' =>
        rw [hsv, hsb] at hs
        simp only [Except.map] at hs
        simp only [hsv, hsb, Except.map]
        exact hs
      | ok y =>
        rw [hsv, hsb] at hs
        simp [Except.map] at hs
    | ok x =>
      cases hsb : stateStepBackend afields
          (e2 ++ _required afields ["address1", "city", "state", "zip"]) with
      | error e' =>
        rw [hsv, hsb] at hs
        simp [Except.map] at hs
      | ok y =>
        rw [hsv, hsb] at hs
        simp only [Except.map, Except.ok.injEq] at hs
        simp only [hsv, hsb, Except.map, Except.ok.injEq]
        exact zipStep_length afields x y hs
  all_goals simp [Except.map, List.length_append, hlen]

/-- C10 (amended): the backend and serverless validators agree in
control structure — on every dict input they raise identically or
return lists of equal length (corresponding checks fire under identical
conditions); the message texts differ for the nested-address required
fields and the state check (see
`validators_differ_on_nested_messages`); and on non-dict input the
backend returns a single-error list while the serverless validator
raises `AttributeError`. -/
theorem validators_agree_structurally :
    (∀ fields, (_validate (.obj fields)).map List.length =
       (validate_subscription_payload (.obj fields)).map List.length) ∧
    (∀ v : Value, (∀ fs, v ≠ .obj fs) →
       validate_subscription_payload v = .ok [nonDictMsg] ∧
       _validate v = .error .attributeError) := by
  constructor
  · intro fields
    simp only [_validate, validate_subscription_payload]
    cases he : emailStep fields (_required fields REQUIRED_KEYS) with
    | error e => rfl
    | ok e1 =>
      show (match planStep fields e1 with
            | .error e => (Except.error e : Except PyErr (List String))
            | .ok errs2 => addressStepSv fields errs2).map List.length =
        (match planStep fields e1 with
         | .error e => (Except.error e : Except PyErr (List String))
         | .ok errs2 => addressStepBackend fields errs2).map List.length
      cases hp : planStep fields e1 with
      | error e => rfl
      | ok e2 => exact addressSteps_length fields e2 e2 rfl
  · intro v hv
    cases v with
    | obj fs => exact absurd rfl (hv fs)
    | str s => exact ⟨rfl, rfl⟩
    | num n => exact ⟨rfl, rfl⟩
    | bool b => exact ⟨rfl, rfl⟩
    | null => exact ⟨rfl, rfl⟩
    | arr xs => exact ⟨rfl, rfl⟩

/-- C10 counterexample: on `{"address": {}}` the two validators return
different lists — the serverless one prefixes the nested required-field
messages with `address.` — so they are not extensionally equal. -/
theorem validators_differ_on_nested_messages :
    _validate (.obj [("address", .obj [])]) ≠
      validate_subscription_payload (.obj [("address", .obj [])]) := by
  intro h
  have h1 : _validate (.obj [("address", .obj [])]) =
      .ok [requiredMsg "recurly_token", requiredMsg "plan_code",
           requiredMsg "first_name", requiredMsg "last_name", requiredMsg "email",
           addrRequiredMsgSv "address1", addrRequiredMsgSv "city",
           addrRequiredMsgSv "state", addrRequiredMsgSv "zip"] := rfl
  have h2 : validate_subscription_payload (.obj [("address", .obj [])]) =
      .ok [requiredMsg "recurly_token", requiredMsg "plan_code",
           requiredMsg "first_name", requiredMsg "last_name", requiredMsg "email",
           requiredMsg "address1", requiredMsg "city",
           requiredMsg "state", requiredMsg "zip"] := rfl
  rw [h1, h2] at h
  simp only [Except.ok.injEq] at h
  exact absurd h (by decide)

/-- C10 witness: the structural agreement applied at the empty dict and
the divergent non-dict behaviour at `0`. -/
theorem validators_agree_structurally_witness :
    (_validate (.obj [])).map List.length =
      (validate_subscription_payload (.obj [])).map List.length ∧
    (validate_subscription_payload (.num 0) = .ok [nonDictMsg] ∧
     _validate (.num 0) = .error .attributeError) := by
  have h := validators_agree_structurally
  exact ⟨h.1 [], h.2 (.num 0) (fun fs hh => Value.noConfusion hh)⟩
